import Mathlib

/-!
Verification development for the pakistan-osint-threat-assessment pipeline.

Shallow embedding of the scoring / filtering / discovery core
(src/analysis_layers.py, src/keywords.py, src/models.py, src/fetcher.py).

Modelling conventions:
- Python floats are modelled as exact rationals (ℚ); the arithmetic in the
  scoring formulas is decimal and the specification treats it as exact.
- Python regular expressions used by the scorer are fixed alternations of
  word-bounded literal words or phrases over a whitespace-normalized,
  ASCII-case-insensitive haystack; they are embedded as explicit scanners
  over lists of characters.  Word characters are modelled as ASCII
  alphanumerics plus underscore (the haystacks in all theorems are ASCII).
- Impure inputs (the current UTC date, the HTTP layer, the wall clock) are
  passed explicitly as parameters.
-/

/- The core rational-number operations are sealed (irreducible) by default,
which blocks kernel evaluation of concrete score computations inside decide.
Reducibility is a purely elaborator-side setting with no axiomatic content,
so re-opening them is sound; it lets the witnesses below evaluate. -/
set_option allowUnsafeReducibility true in
attribute [semireducible] Rat.add Rat.mul Rat.sub Rat.neg Rat.div Rat.inv
  Rat.ofScientific Rat.maybeNormalize Rat.normalize Rat.blt

set_option maxRecDepth 8192

namespace PakOsint

/-! ## Python-style string utilities (_safe_text, _normalize_ws, strip, upper) -/

/-- Whitespace characters recognised by the embedding (the ASCII characters
matched by a Python whitespace class). -/
def isSpaceChar (c : Char) : Bool :=
  c == ' ' || c == '\t' || c == '\n' || c == '\r' || c == '\x0b' || c == '\x0c'

/-- Word character for word-boundary tests: ASCII letter, digit or underscore. -/
def isWordChar (c : Char) : Bool :=
  c.isAlphanum || c == '_'

def stripChars (l : List Char) : List Char :=
  ((l.dropWhile isSpaceChar).reverse.dropWhile isSpaceChar).reverse

/-- Python str.strip for the modelled whitespace set. -/
def pyStrip (s : String) : String :=
  String.mk (stripChars s.data)

def pyUpper (s : String) : String :=
  String.mk (s.data.map Char.toUpper)

def pyLower (s : String) : String :=
  String.mk (s.data.map Char.toLower)

/-- Collapse runs of adjacent whitespace characters to their first character. -/
def squeezeSpaces : List Char → List Char
  | [] => []
  | [c] => [c]
  | a :: b :: rest =>
    if isSpaceChar a && isSpaceChar b then squeezeSpaces (b :: rest)
    else a :: squeezeSpaces (b :: rest)

/-- Embeds analysis_layers._normalize_ws composed with _safe_text:
NBSP becomes a space, every whitespace run collapses to one space and the
result is stripped. -/
def normalize_ws (s : String) : String :=
  let cleaned := s.data.map (fun c => if c = '\u00A0' then ' ' else c)
  let spaced := cleaned.map (fun c => if isSpaceChar c then ' ' else c)
  String.mk (stripChars (squeezeSpaces spaced))

/-! ## Case-insensitive word / substring scanners (the compiled regexes) -/

/-- Case-insensitive character equality (ASCII folding). -/
def lcEq (a b : Char) : Bool :=
  a.toLower == b.toLower

/-- pat is a case-insensitive prefix of hay. -/
def matchesAt : List Char → List Char → Bool
  | [], _ => true
  | _ :: _, [] => false
  | p :: ps, h :: hs => lcEq p h && matchesAt ps hs

/-- A word boundary holds against this neighbouring character (or text edge). -/
def boundaryOk : Option Char → Bool
  | none => true
  | some c => !isWordChar c

/-- Word-bounded case-insensitive occurrence of pat in hay, scanning left to
right and remembering the previous character (embeds a regex alternative of
the form word-boundary, literal, word-boundary).  Interior whitespace in pat
is a single space; the haystacks are whitespace-normalized, so a single space
is exactly what an interior whitespace-run pattern can match. -/
def scanWord (pat : List Char) : Option Char → List Char → Bool
  | prev, hay =>
    (boundaryOk prev && matchesAt pat hay && boundaryOk (hay.drop pat.length).head?)
    ||
    match hay with
    | [] => false
    | c :: rest => scanWord pat (some c) rest

def containsWordCI (hay : String) (w : String) : Bool :=
  scanWord w.data none hay.data

def containsAnyWordCI (hay : String) (ws : List String) : Bool :=
  ws.any (fun w => containsWordCI hay w)

/-- Number of word-bounded case-insensitive occurrences of pat (embeds
re.findall for a word-bounded literal; such occurrences cannot overlap, so
counting match positions equals the findall count). -/
def countWord (pat : List Char) : Option Char → List Char → Nat
  | prev, hay =>
    let here :=
      if boundaryOk prev && matchesAt pat hay && boundaryOk (hay.drop pat.length).head?
      then 1 else 0
    match hay with
    | [] => here
    | c :: rest => here + countWord pat (some c) rest

/-- Case-sensitive substring containment (plain `in` / substring test). -/
def containsSubstr (hay needle : String) : Bool :=
  let rec go : List Char → Bool
    | [] => needle.data.isPrefixOf []
    | c :: rest => needle.data.isPrefixOf (c :: rest) || go rest
  go hay.data

/-- Case-insensitive substring containment (an escaped literal pattern with
re.IGNORECASE). -/
def containsSubstrCI (hay needle : String) : Bool :=
  let rec go : List Char → Bool
    | [] => matchesAt needle.data []
    | c :: rest => matchesAt needle.data (c :: rest) || go rest
  go hay.data

/-! ## The raw provenance mapping -/

/-- Values the repository stores inside Article.raw (a Dict of str to Any).
Only the value shapes the code actually writes are modelled: strings,
booleans, lists of keyword strings, and the nested rss dict holding a
published_at. -/
inductive RawVal where
  | rstr (s : String)
  | rbool (b : Bool)
  | rlist (xs : List String)
  | rdictPub (published_at : Option String)
deriving DecidableEq, Repr

/-- Python dict lookup on the insertion-ordered association list. -/
def rawGet (raw : List (String × RawVal)) (k : String) : Option RawVal :=
  (raw.find? (fun p => p.1 == k)).map (·.2)

/-- Python dict assignment: replace in place when the key exists, else append. -/
def rawSet (raw : List (String × RawVal)) (k : String) (v : RawVal) :
    List (String × RawVal) :=
  if raw.any (fun p => p.1 == k) then
    raw.map (fun p => if p.1 == k then (k, v) else p)
  else
    raw ++ [(k, v)]

/-! ## The Article record (src/models.py) -/

structure Article where
  id : String
  country : String
  source_name : String
  source_slug : String
  url : String
  title : String
  published_at : Option String := none
  author : Option String := none
  summary : Option String := none
  content_text : Option String := none
  content_length : Nat := 0
  extraction_method : String := ""
  extraction_notes : List String := []
  run_id : Option String := none
  run_created_at : Option String := none
  fetched_at : Option String := none
  keywords_matched : List String := []
  keywords_national_matched : List String := []
  keywords_threat_matched : List String := []
  national_relevant : Option Bool := none
  threat_relevant : Option Bool := none
  shortlisted : Option Bool := none
  kw_national_hits : List String := []
  kw_threat_hits : List String := []
  relevance_score : Option ℚ := none
  evidence_strength : Option String := none
  evidence_numeric : Option ℚ := none
  urgency_score : Option ℚ := none
  keyword_intensity : Option ℚ := none
  prepriority_score : Option ℚ := none
  prepriority_bucket : Option String := none
  threat_score : Option ℚ := none
  threat_level : Option String := none
  threat_vector : Option String := none
  one_liner_threat : Option String := none
  reasons : List String := []
  risk_index : Option ℚ := none
  truth_score : Option ℚ := none
  truth_label : Option String := none
  truth_reasons : List String := []
  threat_factors : List String := []
  raw : List (String × RawVal) := []
deriving DecidableEq, Repr

/-- Embeds analysis_layers._haystack: the five text fields joined by spaces
and whitespace-normalized.  A None field contributes the empty string. -/
def haystack (a : Article) : String :=
  normalize_ws (String.intercalate " "
    [a.title, a.summary.getD "", a.content_text.getD "", a.url, a.author.getD ""])

/-! ## The Layer-2 regex patterns as word/phrase alternations -/

def pakLocationWords : List String :=
  ["Islamabad", "Rawalpindi", "Karachi", "Lahore", "Peshawar", "Quetta",
   "Multan", "Faisalabad", "Gwadar", "Gilgit", "Skardu", "Muzaffarabad",
   "Mirpur", "Kashmir", "Balochistan", "Sindh", "Punjab",
   "Khyber Pakhtunkhwa", "KP", "GB", "AJK", "FATA"]

def pakSecurityWords : List String :=
  ["Pakistan Army", "Pak Army", "PAF", "Pakistan Air Force", "Pakistan Navy",
   "ISI", "ISPR", "DG ISPR", "FIA", "IB", "Intelligence Bureau", "CTD",
   "Counter Terrorism Department", "Rangers", "Frontier Corps", "FC",
   "NADRA", "Police", "Sindh Police", "Punjab Police", "KPK Police",
   "Balochistan Police"]

def namedEntityWords : List String :=
  ["Prime Minister", "President", "Chief Minister", "Interior Minister",
   "Foreign Minister", "Army Chief", "COAS", "DG ISPR", "spokesperson",
   "commissioner", "inspector", "IG", "DIG", "Ministry", "Ministries",
   "Department", "Court", "High Court", "Supreme Court", "Parliament",
   "Senate", "Assembly", "Police", "Rangers", "Army", "Navy", "Air Force",
   "FIA", "NADRA", "ISPR", "UN", "IMF", "FATF", "World Bank"]

def citationWords : List String :=
  ["report", "statement", "press release", "briefing", "dossier",
   "white paper", "document", "UN", "United Nations", "FATF", "IMF",
   "World Bank", "court", "police report", "investigation"]

def cityWords : List String :=
  ["city", "district", "province", "village", "tehsil"]

def quoteAttribWords : List String :=
  ["said", "stated", "told", "according to", "added"]

def pakLocationHit (hay : String) : Bool :=
  containsAnyWordCI hay pakLocationWords

def pakSecurityHit (hay : String) : Bool :=
  containsAnyWordCI hay pakSecurityWords

def namedEntityHit (hay : String) : Bool :=
  containsAnyWordCI hay namedEntityWords

def citationHit (hay : String) : Bool :=
  containsAnyWordCI hay citationWords

def cityWordHit (hay : String) : Bool :=
  containsAnyWordCI hay cityWords

/-- Embeds the quote-attribution regex: an attribution verb phrase with word
boundaries, followed by at least one whitespace character (its trailing
non-period run may be empty, so only the whitespace is required).  In a
normalized haystack that whitespace is a single space. -/
def quoteAttribHit (hay : String) : Bool :=
  quoteAttribWords.any fun w =>
    let rec scanWs (pat : List Char) : Option Char → List Char → Bool
      | prev, h =>
        (boundaryOk prev && matchesAt pat h
          && ((h.drop pat.length).head?.elim false isSpaceChar))
        ||
        match h with
        | [] => false
        | c :: rest => scanWs pat (some c) rest
    scanWs w.data none hay.data

/-- A quotation mark is present (the four characters tested by the code). -/
def quoteCharPresent (hay : String) : Bool :=
  hay.data.any (fun c => c = '"' || c = '“' || c = '’' || c = '”')

/-- Embeds the numeric-token regex.  Its second alternative (comma-grouped
numbers) is absorbed by the first: every comma-grouped match contains a
word-bounded digit run of length at most four, so the predicate reduces to
the existence of a word-bounded run of one to four digits. -/
def numericAt : List Char → Bool
  | d1 :: r1 =>
    d1.isDigit &&
      (boundaryOk r1.head? ||
        match r1 with
        | d2 :: r2 =>
          d2.isDigit &&
            (boundaryOk r2.head? ||
              match r2 with
              | d3 :: r3 =>
                d3.isDigit &&
                  (boundaryOk r3.head? ||
                    match r3 with
                    | d4 :: r4 => d4.isDigit && boundaryOk r4.head?
                    | [] => false)
              | [] => false)
        | [] => false)
  | [] => false

def scanNumeric : Option Char → List Char → Bool
  | prev, hay =>
    (boundaryOk prev && numericAt hay)
    ||
    match hay with
    | [] => false
    | c :: rest => scanNumeric (some c) rest

def numericHit (hay : String) : Bool :=
  scanNumeric none hay.data

/-- Embeds _count_explicit_pakistan_mentions: whole-word, case-insensitive
count of the literal Pakistan. -/
def count_explicit_pakistan_mentions (text : String) : Nat :=
  countWord "Pakistan".data none text.data

/-! ## Dates (_try_parse_iso_date, age in days) -/

def isLeapYear (y : Nat) : Bool :=
  y % 4 == 0 && (y % 100 != 0 || y % 400 == 0)

def daysInMonth (y m : Nat) : Nat :=
  if m == 2 then (if isLeapYear y then 29 else 28)
  else if m == 4 || m == 6 || m == 9 || m == 11 then 30
  else 31

def validYmd (y m d : Nat) : Bool :=
  1 ≤ m && m ≤ 12 && 1 ≤ d && d ≤ daysInMonth y m

/-- Days since 1970-01-01 of a civil date (standard civil-calendar formula;
all intermediate quotients are of nonnegative numbers). -/
def daysFromCivil (y m d : Nat) : Int :=
  let yAdj : Int := if m ≤ 2 then (y : Int) - 1 else (y : Int)
  let era : Int := (if yAdj ≥ 0 then yAdj else yAdj - 399) / 400
  let yoe : Int := yAdj - era * 400
  let mp : Int := if m > 2 then (m : Int) - 3 else (m : Int) + 9
  let doy : Int := (153 * mp + 2) / 5 + (d : Int) - 1
  let doe : Int := yoe * 365 + yoe / 4 - yoe / 100 + doy
  era * 146097 + doe - 719468

def digitVal (c : Char) : Option Nat :=
  if c.isDigit then some (c.toNat - 48) else none

/-- Read a leading YYYY-MM-DD from the character list. -/
def readYmd : List Char → Option (Nat × Nat × Nat)
  | c1 :: c2 :: c3 :: c4 :: h1 :: c5 :: c6 :: h2 :: c7 :: c8 :: _ =>
    if h1 = '-' && h2 = '-' then
      match digitVal c1, digitVal c2, digitVal c3, digitVal c4,
            digitVal c5, digitVal c6, digitVal c7, digitVal c8 with
      | some a, some b, some c, some d, some e, some f, some g, some h =>
        some (a * 1000 + b * 100 + c * 10 + d, e * 10 + f, g * 10 + h)
      | _, _, _, _, _, _, _, _ => none
    else none
  | _ => none

/-- Embeds analysis_layers._try_parse_iso_date, returning the civil-day
ordinal of the parsed date.  The three source branches (exact YYYY-MM-DD,
ISO datetime via fromisoformat, leading YYYY-MM-DD prefix) all yield the
date written in the first ten characters whenever they succeed, so the
model reads a valid leading YYYY-MM-DD (invalid calendar dates yield none,
as the exception handlers do).  Exotic formats accepted only by
fromisoformat (for example the compact YYYYMMDD form) are not modelled. -/
def try_parse_iso_date (s : Option String) : Option Int :=
  match s with
  | none => none
  | some s0 =>
    let t := pyStrip s0
    if t = "" then none
    else
      match readYmd t.data with
      | some (y, m, d) => if validYmd y m d then some (daysFromCivil y m d) else none
      | none => none

/-- Age in days used by _compute_urgency: 999 when the publish date does not
parse, else the absolute day difference from today. -/
def ageDays (today : Int) (published_at : Option String) : Nat :=
  match try_parse_iso_date published_at with
  | none => 999
  | some p => (today - p).natAbs

/-! ## Layer 2 (analysis_layers.compute_layer2_scores and helpers) -/

def clampQ (x lo hi : ℚ) : ℚ :=
  if x < lo then lo else if hi < x then hi else x

/-- Python min on two rationals (used where the source writes min(100.0, v)). -/
def minQ (x y : ℚ) : ℚ :=
  if x ≤ y then x else y

/-- Python `list(xs or []) or list(ys or [])` on two list fields: the first
list when nonempty, else the second. -/
def pyOrList (xs ys : List String) : List String :=
  if xs.isEmpty then ys else xs

/-- Embeds _prepriority_bucket (thresholds 80 / 60 / 40). -/
def prepriority_bucket : Option ℚ → String
  | none => "LOW"
  | some x =>
    if x ≥ 80 then "CRITICAL"
    else if x ≥ 60 then "HIGH"
    else if x ≥ 40 then "MEDIUM"
    else "LOW"

/-- Embeds _compute_relevance. -/
def compute_relevance (a : Article) : ℚ :=
  let kwNat := pyOrList a.kw_national_hits a.keywords_national_matched
  let n : Nat := min kwNat.length 10
  let hay := haystack a
  let p : Nat := min (count_explicit_pakistan_mentions hay) 5
  let l : Nat := if pakLocationHit hay || pakSecurityHit hay then 1 else 0
  let s : ℚ := if pyUpper (pyStrip a.country) = "PAKISTAN" then 10 else 0
  minQ 100 (10 * (n : ℚ) + 8 * (p : ℚ) + 25 * (l : ℚ) + s)

/-- Embeds _evidence_points (five independent 2-point heuristics, clamped to
0..10, which the sum already satisfies). -/
def evidence_points (a : Article) : Nat :=
  let hay := haystack a
  let p1 := if namedEntityHit hay then 2 else 0
  let p2 := if numericHit hay then 2 else 0
  let p3 := if pakLocationHit hay || cityWordHit hay then 2 else 0
  let p4 := if citationHit hay then 2 else 0
  let p5 := if quoteCharPresent hay && quoteAttribHit hay then 2 else 0
  min (p1 + p2 + p3 + p4 + p5) 10

/-- Embeds _evidence_bucket_and_numeric. -/
def evidence_bucket_and_numeric (points : Nat) : String × ℚ :=
  if points ≤ 3 then ("LOW", 25)
  else if points ≤ 7 then ("MED", 60)
  else ("HIGH", 90)

/-- Embeds _compute_urgency; today is the current UTC date as a civil-day
ordinal (the impure clock read made explicit). -/
def compute_urgency (today : Int) (a : Article) : ℚ :=
  let age := ageDays today a.published_at
  let recScore : ℚ :=
    if age ≤ 0 then 60
    else if age ≤ 1 then 55
    else if age ≤ 2 then 50
    else if age ≤ 3 then 45
    else if age ≤ 7 then 35
    else if age ≤ 14 then 25
    else if age ≤ 30 then 15
    else 5
  let kwThr := pyOrList a.kw_threat_hits a.keywords_threat_matched
  let thr : Nat := min kwThr.length 10
  clampQ (recScore + (thr : ℚ) * 4) 0 100

/-- Embeds _compute_keyword_intensity. -/
def compute_keyword_intensity (a : Article) : ℚ :=
  let kwNat := pyOrList a.kw_national_hits a.keywords_national_matched
  let kwThr := pyOrList a.kw_threat_hits a.keywords_threat_matched
  let total := kwNat.length + kwThr.length
  clampQ (10 * ((min total 10 : Nat) : ℚ)) 0 100

/-- Embeds one iteration of the compute_layer2_scores loop: the seven Layer-2
fields are assigned, everything else is untouched. -/
def compute_layer2_one (today : Int) (a : Article) : Article :=
  let r := compute_relevance a
  let pts := evidence_points a
  let eb := (evidence_bucket_and_numeric pts).1
  let en := (evidence_bucket_and_numeric pts).2
  let u := compute_urgency today a
  let k := compute_keyword_intensity a
  let pre : ℚ := 0.45 * r + 0.25 * u + 0.20 * en + 0.10 * k
  let preStored := clampQ pre 0 100
  { a with
    relevance_score := some (clampQ r 0 100)
    evidence_strength := some eb
    evidence_numeric := some en
    urgency_score := some (clampQ u 0 100)
    keyword_intensity := some (clampQ k 0 100)
    prepriority_score := some preStored
    prepriority_bucket := some (prepriority_bucket (some preStored)) }

/-- Embeds compute_layer2_scores (the in-place loop, as a map). -/
def compute_layer2_scores (today : Int) (articles : List Article) : List Article :=
  articles.map (compute_layer2_one today)

/-! ## JSON values and json.loads (used by the Layer-3 response parsing) -/

inductive Json where
  | null
  | bool (b : Bool)
  | num (q : ℚ)
  | str (s : String)
  | arr (xs : List Json)
  | obj (fields : List (String × Json))
deriving Repr

/-- Python dict lookup; objects built by the parser have unique keys. -/
def dictGet (d : List (String × Json)) (k : String) : Option Json :=
  (d.find? (fun p => p.1 == k)).map (·.2)

/-- Python dict assignment while building or updating an object: a later
binding of an existing key overwrites in place, a new key is appended. -/
def dictInsert (d : List (String × Json)) (k : String) (v : Json) :
    List (String × Json) :=
  if d.any (fun p => p.1 == k) then
    d.map (fun p => if p.1 == k then (k, v) else p)
  else
    d ++ [(k, v)]

def jsonSkipWs (cs : List Char) : List Char :=
  cs.dropWhile (fun c => c = ' ' || c = '\t' || c = '\n' || c = '\r')

def hexVal (c : Char) : Option Nat :=
  if c.isDigit then some (c.toNat - 48)
  else if 'a' ≤ c && c ≤ 'f' then some (c.toNat - 87)
  else if 'A' ≤ c && c ≤ 'F' then some (c.toNat - 55)
  else none

/-- JSON string body after the opening quote.  Surrogate-pair merging of
consecutive escapes is not modelled (no theorem exercises it). -/
def parseJStrAux : List Char → List Char → Option (String × List Char)
  | acc, '"' :: rest => some (String.mk acc.reverse, rest)
  | acc, '\\' :: e :: rest =>
    match e with
    | '"' => parseJStrAux ('"' :: acc) rest
    | '\\' => parseJStrAux ('\\' :: acc) rest
    | '/' => parseJStrAux ('/' :: acc) rest
    | 'b' => parseJStrAux ('\x08' :: acc) rest
    | 'f' => parseJStrAux ('\x0c' :: acc) rest
    | 'n' => parseJStrAux ('\n' :: acc) rest
    | 'r' => parseJStrAux ('\r' :: acc) rest
    | 't' => parseJStrAux ('\t' :: acc) rest
    | 'u' =>
      match rest with
      | h1 :: h2 :: h3 :: h4 :: rest4 =>
        match hexVal h1, hexVal h2, hexVal h3, hexVal h4 with
        | some x1, some x2, some x3, some x4 =>
          parseJStrAux (Char.ofNat (x1 * 4096 + x2 * 256 + x3 * 16 + x4) :: acc) rest4
        | _, _, _, _ => none
      | _ => none
    | _ => none
  | acc, c :: rest => if c.toNat < 32 then none else parseJStrAux (c :: acc) rest
  | _, [] => none

def parseJStr (cs : List Char) : Option (String × List Char) :=
  parseJStrAux [] cs

def takeDigits : List Char → (List Nat × List Char)
  | [] => ([], [])
  | c :: rest =>
    match digitVal c with
    | some d =>
      let (ds, r) := takeDigits rest
      (d :: ds, r)
    | none => ([], c :: rest)

def digitsToNat (ds : List Nat) : Nat :=
  ds.foldl (fun a d => a * 10 + d) 0

/-- JSON number parsing into an exact rational (decimal mantissa and power
of ten). -/
def parseJNum (cs : List Char) : Option (ℚ × List Char) :=
  let (neg, cs1) := match cs with
    | '-' :: r => (true, r)
    | _ => (false, cs)
  let (ds, cs2) := takeDigits cs1
  if ds.isEmpty then none
  else if ds.length > 1 && ds.headD 0 = 0 then none
  else
    let (fs, cs3) := match cs2 with
      | '.' :: r =>
        let (fs0, r0) := takeDigits r
        (some fs0, r0)
      | _ => (none, cs2)
    match fs with
    | some [] => none
    | _ =>
      let fracDigits := fs.getD []
      let expPart : Option (Int × List Char) := match cs3 with
        | 'e' :: r | 'E' :: r =>
          let (esign, r1) := match r with
            | '-' :: r2 => ((-1 : Int), r2)
            | '+' :: r2 => ((1 : Int), r2)
            | _ => ((1 : Int), r)
          let (es, r3) := takeDigits r1
          if es.isEmpty then none else some (esign * (digitsToNat es : Int), r3)
        | _ => some (0, cs3)
      match expPart with
      | none => none
      | some (e, cs4) =>
        let mant : Int := (digitsToNat (ds ++ fracDigits) : Int)
        let mant := if neg then -mant else mant
        let scale : Int := e - (fracDigits.length : Int)
        let q : ℚ :=
          if 0 ≤ scale then mkRat (mant * (10 : Int) ^ scale.toNat) 1
          else mkRat mant ((10 : Nat) ^ scale.natAbs)
        some (q, cs4)

mutual

def parseJVal : Nat → List Char → Option (Json × List Char)
  | 0, _ => none
  | fuel + 1, cs =>
    let cs := jsonSkipWs cs
    match cs with
    | '{' :: rest => parseJObj fuel (jsonSkipWs rest) true []
    | '[' :: rest => parseJArr fuel (jsonSkipWs rest) true []
    | '"' :: rest => (parseJStr rest).map (fun p => (Json.str p.1, p.2))
    | 't' :: 'r' :: 'u' :: 'e' :: rest => some (Json.bool true, rest)
    | 'f' :: 'a' :: 'l' :: 's' :: 'e' :: rest => some (Json.bool false, rest)
    | 'n' :: 'u' :: 'l' :: 'l' :: rest => some (Json.null, rest)
    | _ => (parseJNum cs).map (fun p => (Json.num p.1, p.2))

/-- Members of an object; allowEmpty holds only directly after the opening
brace (a trailing comma is an error). -/
def parseJObj : Nat → List Char → Bool → List (String × Json) →
    Option (Json × List Char)
  | 0, _, _, _ => none
  | fuel + 1, cs, allowEmpty, acc =>
    match cs with
    | '}' :: rest => if allowEmpty then some (Json.obj acc, rest) else none
    | '"' :: rest =>
      match parseJStr rest with
      | none => none
      | some (k, r1) =>
        match jsonSkipWs r1 with
        | ':' :: r2 =>
          match parseJVal fuel r2 with
          | none => none
          | some (v, r3) =>
            let acc2 := dictInsert acc k v
            match jsonSkipWs r3 with
            | ',' :: r4 => parseJObj fuel (jsonSkipWs r4) false acc2
            | '}' :: r4 => some (Json.obj acc2, r4)
            | _ => none
        | _ => none
    | _ => none

def parseJArr : Nat → List Char → Bool → List Json → Option (Json × List Char)
  | 0, _, _, _ => none
  | fuel + 1, cs, allowEmpty, acc =>
    match cs with
    | ']' :: rest => if allowEmpty then some (Json.arr acc, rest) else none
    | _ =>
      match parseJVal fuel cs with
      | none => none
      | some (v, r1) =>
        let acc2 := acc ++ [v]
        match jsonSkipWs r1 with
        | ',' :: r2 => parseJArr fuel (jsonSkipWs r2) false acc2
        | ']' :: r2 => some (Json.arr acc2, r2)
        | _ => none

end

/-- Embeds json.loads: parse one value, then only whitespace may remain.
The fuel exceeds the length of any root-to-leaf chain of parser calls
(every nested call first consumes at least one character). -/
def jsonLoads (s : String) : Option Json :=
  match parseJVal (s.length + 8) s.data with
  | some (j, rest) => if (jsonSkipWs rest).isEmpty then some j else none
  | none => none

def firstIdxOf (c : Char) (cs : List Char) : Option Nat :=
  cs.findIdx? (fun x => x == c)

def lastIdxOf (c : Char) (cs : List Char) : Option Nat :=
  (cs.reverse.findIdx? (fun x => x == c)).map (fun k => cs.length - 1 - k)

/-- Embeds _extract_json_object: try the whole stripped text; if that does
not give a dict, take the greedy first-brace-to-last-brace block and try
that. -/
def extract_json_object (text : String) : Option (List (String × Json)) :=
  if text = "" then none
  else
    let t := pyStrip text
    match jsonLoads t with
    | some (Json.obj d) => some d
    | _ =>
      match firstIdxOf '{' t.data, lastIdxOf '}' t.data with
      | some i, some j =>
        if i < j then
          match jsonLoads (String.mk ((t.data.drop i).take (j - i + 1))) with
          | some (Json.obj d) => some d
          | _ => none
        else none
      | _, _ => none

/-! ## Layer 3 post-processing (run_layer3_llm_scoring, lines 604-630) -/

/-- Embeds _threat_level_from_score. -/
def threat_level_from_score (t : ℚ) : String :=
  if t ≥ 75 then "CRITICAL"
  else if t ≥ 50 then "HIGH"
  else if t ≥ 25 then "MED"
  else "LOW"

/-- Embeds _clean_vector. -/
def clean_vector (v : String) : String :=
  let v2 := pyUpper (pyStrip v)
  if ["MILITARY", "TERROR", "CYBER", "DIPLO", "ECON", "INTERNAL", "OTHER"].contains v2
  then v2 else "OTHER"

/-- Embeds _safe_text: NBSP to space, then strip (no run collapsing). -/
def safe_text (s : String) : String :=
  pyStrip (String.mk (s.data.map (fun c => if c = '\u00A0' then ' ' else c)))

/-- Python float(string): optional sign, decimal digits with optional point
and exponent.  The inf and nan spellings are not modelled (they have no
rational value; no theorem exercises them). -/
def pyFloatOfString (s : String) : Option ℚ :=
  let cs := (pyStrip s).data
  let (neg, cs1) := match cs with
    | '-' :: r => (true, r)
    | '+' :: r => (false, r)
    | _ => (false, cs)
  let (ds, cs2) := takeDigits cs1
  let (fs, cs3) := match cs2 with
    | '.' :: r => takeDigits r
    | _ => ([], cs2)
  if ds.isEmpty && fs.isEmpty then none
  else
    let expPart : Option (Int × List Char) := match cs3 with
      | 'e' :: r | 'E' :: r =>
        let (esign, r1) := match r with
          | '-' :: r2 => ((-1 : Int), r2)
          | '+' :: r2 => ((1 : Int), r2)
          | _ => ((1 : Int), r)
        let (es, r3) := takeDigits r1
        if es.isEmpty then none else some (esign * (digitsToNat es : Int), r3)
      | _ => some (0, cs3)
    match expPart with
    | none => none
    | some (e, cs4) =>
      if cs4.isEmpty then
        let mant : Int := (digitsToNat (ds ++ fs) : Int)
        let mant := if neg then -mant else mant
        let scale : Int := e - (fs.length : Int)
        some (if 0 ≤ scale then mkRat (mant * (10 : Int) ^ scale.toNat) 1
              else mkRat mant ((10 : Nat) ^ scale.natAbs))
      else none

/-- Embeds _coerce_float on a decoded JSON value.  Python float() accepts
numbers, booleans and numeric strings and raises (so the default is used)
on anything else. -/
def coerce_float (v : Json) (default : ℚ) : ℚ :=
  match v with
  | .num q => q
  | .bool b => if b then 1 else 0
  | .str s => (pyFloatOfString s).getD default
  | _ => default

/-- Python truthiness of a decoded JSON value. -/
def jsonFalsy : Json → Bool
  | .null => true
  | .bool b => !b
  | .num q => q.num == 0
  | .str s => s == ""
  | .arr xs => xs.isEmpty
  | .obj fs => fs.isEmpty

/-- Python str() of a decoded JSON value.  Exact for strings, booleans and
None; numeric and container values get a schematic rendering (the code only
strips the result or matches it against the upper-case vector enum, and no
rendering of a non-string value is an enum member or empty, so only its
non-emptiness matters). -/
def pyStrOfJson : Json → String
  | .str s => s
  | .bool b => if b then "True" else "False"
  | .null => "None"
  | .num q => toString q.num ++ (if q.den = 1 then "" else "/" ++ toString q.den)
  | .arr _ => "[list]"
  | .obj _ => "(dict)"

/-- Python obj.get(k, dflt) or fallback followed by str(), as used for the
threat_vector and one_liner_threat fields. -/
def getStrOr (d : List (String × Json)) (k : String) (dflt fallback : String) : String :=
  let v := (dictGet d k).getD (Json.str dflt)
  if jsonFalsy v then fallback else pyStrOfJson v

/-- Embeds the reasons post-processing: str, strip, drop empties, first six,
then at most four. -/
def jsonReasons (d : List (String × Json)) : List String :=
  let rs := match (dictGet d "reasons").getD (Json.arr []) with
    | .arr xs => xs
    | _ => []
  let cleaned := ((rs.map (fun x => pyStrip (pyStrOfJson x))).filter (fun s => s ≠ "")).take 6
  if cleaned.length > 4 then cleaned.take 4 else cleaned

/-- Embeds the successful-parse branch of run_layer3_llm_scoring
(lines 615-630): score clamped, level recomputed from the score, vector
cleaned, one-liner sanitized, reasons truncated.  The level field of the
parsed object is never read. -/
def apply_llm_json (a : Article) (d : List (String × Json)) : Article :=
  let t := clampQ (coerce_float ((dictGet d "threat_score").getD (Json.num 0)) 0) 0 100
  let vec := clean_vector (getStrOr d "threat_vector" "" "OTHER")
  let one := safe_text (getStrOr d "one_liner_threat" "" "")
  let reasons := jsonReasons d
  { a with
    threat_score := some t
    threat_level := some (threat_level_from_score t)
    threat_vector := some vec
    one_liner_threat := some one
    reasons := reasons }

/-- Python `x or y` on an optional string field. -/
def pyOrOptStr (x : Option String) (y : String) : String :=
  match x with
  | some s => if s = "" then y else s
  | none => y

/-- Embeds the unparseable-JSON branch (lines 606-613): safe defaults plus a
diagnostic note; a list-valued reasons field is unchanged by the
`if not a.reasons` guard. -/
def layer3_parse_fallback (a : Article) : Article :=
  let ts := a.threat_score.getD 0
  { a with
    threat_score := some ts
    threat_level := some (pyOrOptStr a.threat_level (threat_level_from_score ts))
    threat_vector := some (pyOrOptStr a.threat_vector "OTHER")
    one_liner_threat := some (pyOrOptStr a.one_liner_threat "")
    extraction_notes := a.extraction_notes ++ ["LLM_PARSE_ERROR: could not extract JSON"] }

/-- One Layer-3 item given the completion text the model returned (the model
invocation itself is the external collaborator).  The dispatch embeds the
sources `if not obj:` truthiness test: a failed extraction and an extraction
yielding the empty JSON object both take the fallback branch. -/
def run_layer3_on_completion (a : Article) (text : String) : Article :=
  match extract_json_object text with
  | none => layer3_parse_fallback a
  | some d => if d.isEmpty then layer3_parse_fallback a else apply_llm_json a d

/-! ## Final risk fusion (compute_risk_index) -/

/-- Python `float(x or d)` on an optional numeric field: the default is used
when the field is absent, and also when it is zero (zero is falsy). -/
def pyOrQ (x : Option ℚ) (d : ℚ) : ℚ :=
  match x with
  | some v => if v = 0 then d else v
  | none => d

/-- Embeds one iteration of the compute_risk_index loop. -/
def compute_risk_index_one (a : Article) : Article :=
  let t := pyOrQ a.threat_score 0
  let r := pyOrQ a.relevance_score 0
  let u := pyOrQ a.urgency_score 20
  let e := pyOrQ a.evidence_numeric 25
  { a with risk_index := some (clampQ (0.45 * t + 0.35 * r + 0.10 * u + 0.10 * e) 0 100) }

/-- Embeds compute_risk_index (the in-place loop, as a map). -/
def compute_risk_index (articles : List Article) : List Article :=
  articles.map compute_risk_index_one

/-- Modelled from the spec (not from the source), for comparison in C3:
RiskIndex with the documented defaults substituted exactly when the inputs
are absent. -/
def risk_index_spec (a : Article) : ℚ :=
  clampQ (0.45 * a.threat_score.getD 0 + 0.35 * a.relevance_score.getD 0
    + 0.10 * a.urgency_score.getD 20 + 0.10 * a.evidence_numeric.getD 25) 0 100

/-! ## Keyword shortlisting (src/keywords.py) -/

/-- Order-preserving dedupe by exact equality (dict.fromkeys). -/
def dedupeKeep : List String → List String → List String
  | _, [] => []
  | seen, k :: rest =>
    if seen.contains k then dedupeKeep seen rest
    else k :: dedupeKeep (k :: seen) rest

/-- Order-preserving dedupe by case-folded key (ASCII folding models
str.casefold on the keyword lists). -/
def dedupeByLower : List String → List String → List String
  | _, [] => []
  | seen, k :: rest =>
    if seen.contains (pyLower k) then dedupeByLower seen rest
    else k :: dedupeByLower (pyLower k :: seen) rest

/-- Embeds _clean_keywords: keep stripped nonempty strings, dedupe by
casefold, preserve order. -/
def clean_keywords (kws : List String) : List String :=
  dedupeByLower [] ((kws.map pyStrip).filter (fun k => k ≠ ""))

/-- A keyword made solely of ASCII alphanumerics (the regex class the code
uses to choose word-boundary matching). -/
def isAlnumKeyword (k : String) : Bool :=
  !k.data.isEmpty && k.data.all Char.isAlphanum

/-- Embeds one compiled keyword pattern applied to a normalized haystack:
word-bounded match for purely alphanumeric keywords, escaped-literal
substring match otherwise, case-insensitive either way. -/
def keyword_matches (hay : String) (k : String) : Bool :=
  if isAlnumKeyword k then containsWordCI hay k else containsSubstrCI hay k

/-- Embeds _match_keywords over the patterns compiled from a keyword list:
the haystack is normalized and the cleaned keywords are tested in order. -/
def match_keywords (hay : String) (kws : List String) : List String :=
  let h := normalize_ws hay
  (clean_keywords kws).filter (fun k => keyword_matches h k)

/-- Embeds keywords._article_haystack (join only; _match_keywords does the
normalization). -/
def article_haystack (a : Article) : String :=
  String.intercalate " "
    [a.title, a.summary.getD "", a.content_text.getD "", a.url, a.author.getD ""]

/-- Embeds _write_layer1_fields: spec fields, backward-compatible fields,
the keywords_matched union and the raw mirror. -/
def write_layer1_fields (a : Article) (nat_hits thr_hits : List String)
    (sl : Bool) : Article :=
  { a with
    kw_national_hits := nat_hits
    kw_threat_hits := thr_hits
    shortlisted := some sl
    keywords_national_matched := nat_hits
    keywords_threat_matched := thr_hits
    national_relevant := some (!nat_hits.isEmpty)
    threat_relevant := some (if !nat_hits.isEmpty then !thr_hits.isEmpty else false)
    keywords_matched := dedupeKeep [] (a.keywords_matched ++ nat_hits ++ thr_hits)
    raw := rawSet (rawSet (rawSet a.raw
      "kw_national_hits" (.rlist nat_hits))
      "kw_threat_hits" (.rlist thr_hits))
      "kw_shortlisted" (.rbool sl) }

/-- Embeds the reset loop at the top of shortlist_articles_two_layer. -/
def reset_kw_fields (a : Article) : Article :=
  { a with
    kw_national_hits := []
    kw_threat_hits := []
    keywords_national_matched := []
    keywords_threat_matched := []
    national_relevant := some false
    threat_relevant := some false
    shortlisted := some false
    raw := rawSet (rawSet (rawSet a.raw
      "kw_national_hits" (.rlist []))
      "kw_threat_hits" (.rlist []))
      "kw_shortlisted" (.rbool false) }

/-- The net effect of both filter layers on one article.  The source runs
three loops over the whole list (reset, layer 1, layer 2), but no loop body
reads another article, so per-article composition is equivalent. -/
def shortlist_one (natKws thrKws : List String) (a : Article) : Article :=
  let a0 := reset_kw_fields a
  let natHits := match_keywords (article_haystack a0) natKws
  let a1 := write_layer1_fields a0 natHits [] false
  if natHits.isEmpty then a1
  else
    let thrHits := match_keywords (article_haystack a1) thrKws
    let sl := !a1.kw_national_hits.isEmpty && !thrHits.isEmpty
    write_layer1_fields a1 a1.kw_national_hits thrHits sl

structure ShortlistResult where
  articles_all : List Article
  national_pass : List Article
  threat_pass : List Article
  national_total_hits : Nat
  threat_total_hits : Nat

/-- Embeds shortlist_articles_two_layer.  articles_all is the input list
after its in-place mutation; national_pass collects the articles with a
national hit; threat_pass collects, among those, the shortlisted ones. -/
def shortlist_articles_two_layer (articles : List Article)
    (national_keywords threat_keywords : List String) : ShortlistResult :=
  let processed := articles.map (shortlist_one national_keywords threat_keywords)
  let national_pass := processed.filter (fun a => !a.kw_national_hits.isEmpty)
  let threat_pass := national_pass.filter (fun a => a.shortlisted == some true)
  { articles_all := processed
    national_pass := national_pass
    threat_pass := threat_pass
    national_total_hits := (processed.map (fun a => a.kw_national_hits.length)).sum
    threat_total_hits := (national_pass.map (fun a => a.kw_threat_hits.length)).sum }

/-! ## Article serialization (models.Article.to_dict / from_dict) -/

/-- The flat mapping produced by Article.to_dict, typed by what to_dict
stores under each key. -/
structure ArticleDict where
  id : String
  country : String
  source_name : String
  source_slug : String
  url : String
  title : String
  published_at : Option String
  author : Option String
  summary : Option String
  content_text : Option String
  content_length : Nat
  extraction_method : String
  extraction_notes : List String
  run_id : Option String
  run_created_at : Option String
  fetched_at : Option String
  keywords_matched : List String
  keywords_national_matched : List String
  keywords_threat_matched : List String
  national_relevant : Option Bool
  threat_relevant : Option Bool
  shortlisted : Option Bool
  kw_national_hits : List String
  kw_threat_hits : List String
  relevance_score : Option ℚ
  evidence_strength : Option String
  evidence_numeric : Option ℚ
  urgency_score : Option ℚ
  keyword_intensity : Option ℚ
  prepriority_score : Option ℚ
  prepriority_bucket : Option String
  threat_score : Option ℚ
  threat_level : Option String
  threat_vector : Option String
  one_liner_threat : Option String
  reasons : List String
  risk_index : Option ℚ
  truth_score : Option ℚ
  truth_label : Option String
  truth_reasons : List String
  threat_factors : List String
  raw : List (String × RawVal)
deriving DecidableEq, Repr

/-- Embeds Article.to_dict (a field-by-field copy into the flat mapping). -/
def to_dict (a : Article) : ArticleDict :=
  { id := a.id, country := a.country, source_name := a.source_name,
    source_slug := a.source_slug, url := a.url, title := a.title,
    published_at := a.published_at, author := a.author, summary := a.summary,
    content_text := a.content_text, content_length := a.content_length,
    extraction_method := a.extraction_method,
    extraction_notes := a.extraction_notes, run_id := a.run_id,
    run_created_at := a.run_created_at, fetched_at := a.fetched_at,
    keywords_matched := a.keywords_matched,
    keywords_national_matched := a.keywords_national_matched,
    keywords_threat_matched := a.keywords_threat_matched,
    national_relevant := a.national_relevant,
    threat_relevant := a.threat_relevant, shortlisted := a.shortlisted,
    kw_national_hits := a.kw_national_hits, kw_threat_hits := a.kw_threat_hits,
    relevance_score := a.relevance_score,
    evidence_strength := a.evidence_strength,
    evidence_numeric := a.evidence_numeric, urgency_score := a.urgency_score,
    keyword_intensity := a.keyword_intensity,
    prepriority_score := a.prepriority_score,
    prepriority_bucket := a.prepriority_bucket, threat_score := a.threat_score,
    threat_level := a.threat_level, threat_vector := a.threat_vector,
    one_liner_threat := a.one_liner_threat, reasons := a.reasons,
    risk_index := a.risk_index, truth_score := a.truth_score,
    truth_label := a.truth_label, truth_reasons := a.truth_reasons,
    threat_factors := a.threat_factors, raw := a.raw }

/-- Python str(x or "") on a string already typed str. -/
def pyOrStrEmpty (s : String) : String :=
  if s = "" then "" else s

/-- Python int(x or 0) on an int already typed int. -/
def pyOrNatZero (n : Nat) : Nat :=
  if n = 0 then 0 else n

/-- Python list(x or []) on a list already typed list. -/
def pyListOr (xs : List String) : List String :=
  if xs.isEmpty then [] else xs

/-- The raw-dict fallback list(raw.get(k, []) or []) used by from_dict for
the explicit kw fields.  A stored list of strings is returned as is; a
string iterates into single-character strings (Python list(str)); absent or
falsy values give the empty list.  Other truthy shapes would raise in
Python and are not modelled (no theorem exercises them). -/
def rawStrList (raw : List (String × RawVal)) (k : String) : List String :=
  match rawGet raw k with
  | some (.rlist xs) => xs
  | some (.rstr s) => if s = "" then [] else s.data.map (fun c => String.mk [c])
  | _ => []

/-- Embeds Article.from_dict on a to_dict-shaped mapping, including the
backward-compatibility carries: keywords_matched seeds
keywords_national_matched when the latter is empty, and the explicit kw
fields fall back to the raw mirror when empty. -/
def from_dict (d : ArticleDict) : Article :=
  let km := pyListOr d.keywords_matched
  let kn0 := pyListOr d.keywords_national_matched
  let kt := pyListOr d.keywords_threat_matched
  let kn := if !km.isEmpty && kn0.isEmpty then dedupeKeep [] km else kn0
  let raw := d.raw
  let kwNat := pyOrList (pyListOr d.kw_national_hits) (rawStrList raw "kw_national_hits")
  let kwThr := pyOrList (pyListOr d.kw_threat_hits) (rawStrList raw "kw_threat_hits")
  { id := pyOrStrEmpty d.id
    country := pyOrStrEmpty d.country
    source_name := pyOrStrEmpty d.source_name
    source_slug := pyOrStrEmpty d.source_slug
    url := pyOrStrEmpty d.url
    title := pyOrStrEmpty d.title
    published_at := d.published_at
    author := d.author
    summary := d.summary
    content_text := d.content_text
    content_length := pyOrNatZero d.content_length
    extraction_method := pyOrStrEmpty d.extraction_method
    extraction_notes := pyListOr d.extraction_notes
    run_id := d.run_id
    run_created_at := d.run_created_at
    fetched_at := d.fetched_at
    keywords_matched := km
    keywords_national_matched := kn
    keywords_threat_matched := kt
    national_relevant := d.national_relevant
    threat_relevant := d.threat_relevant
    shortlisted := d.shortlisted
    kw_national_hits := kwNat
    kw_threat_hits := kwThr
    relevance_score := d.relevance_score
    evidence_strength := d.evidence_strength
    evidence_numeric := d.evidence_numeric
    urgency_score := d.urgency_score
    keyword_intensity := d.keyword_intensity
    prepriority_score := d.prepriority_score
    prepriority_bucket := d.prepriority_bucket
    threat_score := d.threat_score
    threat_level := d.threat_level
    threat_vector := d.threat_vector
    one_liner_threat := d.one_liner_threat
    reasons := pyListOr d.reasons
    risk_index := d.risk_index
    truth_score := d.truth_score
    truth_label := d.truth_label
    truth_reasons := pyListOr d.truth_reasons
    threat_factors := pyListOr d.threat_factors
    raw := raw }

/-! ## SHA-256 (hashlib.sha256, for the content-addressed article id)

Bytes are Nat below 256 and 32-bit words are Nat reduced mod 2 ^ 32. -/

def rotr32 (n x : Nat) : Nat :=
  (x / 2 ^ n) + (x % 2 ^ n) * 2 ^ (32 - n)

def not32 (x : Nat) : Nat :=
  Nat.xor x (2 ^ 32 - 1)

def smallSigma0 (x : Nat) : Nat :=
  Nat.xor (rotr32 7 x) (Nat.xor (rotr32 18 x) (x / 2 ^ 3))

def smallSigma1 (x : Nat) : Nat :=
  Nat.xor (rotr32 17 x) (Nat.xor (rotr32 19 x) (x / 2 ^ 10))

def bigSigma0 (x : Nat) : Nat :=
  Nat.xor (rotr32 2 x) (Nat.xor (rotr32 13 x) (rotr32 22 x))

def bigSigma1 (x : Nat) : Nat :=
  Nat.xor (rotr32 6 x) (Nat.xor (rotr32 11 x) (rotr32 25 x))

def chFn (x y z : Nat) : Nat :=
  Nat.xor (Nat.land x y) (Nat.land (not32 x) z)

def majFn (x y z : Nat) : Nat :=
  Nat.xor (Nat.land x y) (Nat.xor (Nat.land x z) (Nat.land y z))

def sha256K : List Nat :=
  [1116352408, 1899447441, 3049323471, 3921009573, 961987163, 1508970993,
   2453635748, 2870763221, 3624381080, 310598401, 607225278, 1426881987,
   1925078388, 2162078206, 2614888103, 3248222580, 3835390401, 4022224774,
   264347078, 604807628, 770255983, 1249150122, 1555081692, 1996064986,
   2554220882, 2821834349, 2952996808, 3210313671, 3336571891, 3584528711,
   113926993, 338241895, 666307205, 773529912, 1294757372, 1396182291,
   1695183700, 1986661051, 2177026350, 2456956037, 2730485921, 2820302411,
   3259730800, 3345764771, 3516065817, 3600352804, 4094571909, 275423344,
   430227734, 506948616, 659060556, 883997877, 958139571, 1322822218,
   1537002063, 1747873779, 1955562222, 2024104815, 2227730452, 2361852424,
   2428436474, 2756734187, 3204031479, 3329325298]

def sha256H0 : List Nat :=
  [1779033703, 3144134277, 1013904242, 2773480762,
   1359893119, 2600822924, 528734635, 1541459225]

def be64 (n : Nat) : List Nat :=
  [(n / 2 ^ 56) % 256, (n / 2 ^ 48) % 256, (n / 2 ^ 40) % 256,
   (n / 2 ^ 32) % 256, (n / 2 ^ 24) % 256, (n / 2 ^ 16) % 256,
   (n / 2 ^ 8) % 256, n % 256]

def sha256pad (msg : List Nat) : List Nat :=
  let len := msg.length
  let z := (119 - len % 64) % 64
  msg ++ [0x80] ++ List.replicate z 0 ++ be64 (len * 8)

def chunks64Go : Nat → List Nat → List (List Nat)
  | 0, _ => []
  | fuel + 1, l =>
    if l.isEmpty then [] else l.take 64 :: chunks64Go fuel (l.drop 64)

def chunks64 (l : List Nat) : List (List Nat) :=
  chunks64Go l.length l

def wordsOfBlock : List Nat → List Nat
  | b0 :: b1 :: b2 :: b3 :: rest =>
    (b0 * 2 ^ 24 + b1 * 2 ^ 16 + b2 * 2 ^ 8 + b3) :: wordsOfBlock rest
  | _ => []

def extendLoop : Nat → List Nat → List Nat
  | 0, w => w
  | k + 1, w =>
    let n := w.length
    let wi := (smallSigma1 (w.getD (n - 2) 0) + w.getD (n - 7) 0
      + smallSigma0 (w.getD (n - 15) 0) + w.getD (n - 16) 0) % 2 ^ 32
    extendLoop k (w ++ [wi])

def compressStep (st : List Nat) (kw : Nat × Nat) : List Nat :=
  match st with
  | [a, b, c, d, e, f, g, h] =>
    let t1 := (h + bigSigma1 e + chFn e f g + kw.1 + kw.2) % 2 ^ 32
    let t2 := (bigSigma0 a + majFn a b c) % 2 ^ 32
    [(t1 + t2) % 2 ^ 32, a, b, c, (d + t1) % 2 ^ 32, e, f, g]
  | _ => st

def processBlock (h : List Nat) (block : List Nat) : List Nat :=
  let w := extendLoop 48 (wordsOfBlock block)
  let st := (sha256K.zip w).foldl compressStep h
  (h.zip st).map (fun p => (p.1 + p.2) % 2 ^ 32)

def sha256 (msg : List Nat) : List Nat :=
  let hf := (chunks64 (sha256pad msg)).foldl processBlock sha256H0
  hf.flatMap (fun w =>
    [(w / 2 ^ 24) % 256, (w / 2 ^ 16) % 256, (w / 2 ^ 8) % 256, w % 256])

def hexDigit (n : Nat) : Char :=
  if n < 10 then Char.ofNat (48 + n) else Char.ofNat (87 + n)

def bytesToHex (bs : List Nat) : String :=
  String.mk (bs.flatMap (fun b => [hexDigit (b / 16), hexDigit (b % 16)]))

def utf8EncodeChar (c : Char) : List Nat :=
  let n := c.toNat
  if n < 0x80 then [n]
  else if n < 0x800 then [0xC0 + n / 64, 0x80 + n % 64]
  else if n < 0x10000 then
    [0xE0 + n / 4096, 0x80 + (n / 64) % 64, 0x80 + n % 64]
  else
    [0xF0 + n / 262144, 0x80 + (n / 4096) % 64, 0x80 + (n / 64) % 64, 0x80 + n % 64]

def utf8Bytes (s : String) : List Nat :=
  s.data.flatMap utf8EncodeChar

/-- Embeds fetcher._article_id: the first 24 hex digits of the SHA-256 of
slug, url and published_at joined by vertical bars (an absent date is the
empty string). -/
def article_id (source_slug url : String) (published_at : Option String) : String :=
  (bytesToHex (sha256 (utf8Bytes
    (source_slug ++ "|" ++ url ++ "|" ++ published_at.getD "")))).take 24

/-! ## Discovery (fetcher.fetch_discovery_items)

The HTTP layer, RSS parsing and date sniffing perform network requests; they
enter the model as an environment of oracle functions, and every outgoing
request is recorded in a network trace so that ordering claims (network
activity versus configuration errors) can be stated.  Only RSS endpoints and
unrecognised endpoint types are embedded; the FEED_DIRECTORY, HTML_LISTING
and SITEMAP_INDEX branches of the endpoint loop are outside this model and
no theorem below exercises them. -/

structure Endpoint where
  etype : String
  url : String
  note : String := ""
  enabled : Bool := true
deriving DecidableEq, Repr

structure Source where
  country : String
  name : String
  endpoints : List Endpoint := []
  enabled : Bool := true
deriving DecidableEq, Repr

structure RSSItem where
  url : String
  title : String := ""
  summary : String := ""
  author : String := ""
  published_at : Option String := none
deriving DecidableEq, Repr

inductive NetEvent where
  | endpointGet (url : String)
  | sniffGet (url : String)
deriving DecidableEq, Repr

/-- The impure collaborators of discovery: fetching and parsing an RSS
endpoint (None models a failed or empty fetch), the per-article date sniff,
and the wall clock read by _iso_now. -/
structure DiscoveryEnv where
  rssFetch : String → Option (List RSSItem)
  sniffDate : String → Option String
  nowIso : String

def squeezeBy (p : Char → Bool) : List Char → List Char
  | [] => []
  | [c] => [c]
  | a :: b :: rest =>
    if p a && p b then squeezeBy p (b :: rest)
    else a :: squeezeBy p (b :: rest)

/-- Embeds fetcher._safe_slug. -/
def safe_slug (s : String) : String :=
  let t := pyLower (pyStrip s)
  let mapped := t.data.map (fun c => if ('a' ≤ c && c ≤ 'z') || c.isDigit then c else '_')
  let squeezed := squeezeBy (fun c => c = '_') mapped
  let stripped := ((squeezed.dropWhile (fun c => c = '_')).reverse.dropWhile
    (fun c => c = '_')).reverse
  let out := String.mk (stripped.take 80)
  if out = "" then "source" else out

/-- Embeds fetcher.normalize_url: strip, drop any fragment. -/
def normalize_url (u : String) : String :=
  let t := pyStrip u
  String.mk (t.data.takeWhile (fun c => c ≠ '#'))

/-- Embeds fetcher._iso_to_date as the civil ordinal of the leading
YYYY-MM-DD (time-zone conversion of offset datetimes is not modelled; every
date in the theorems is either date-only or UTC). -/
def iso_to_date (s : Option String) : Option Int :=
  match s with
  | none => none
  | some s0 =>
    let t := pyStrip s0
    if t = "" then none
    else
      match readYmd t.data with
      | some (y, m, d) => if validYmd y m d then some (daysFromCivil y m d) else none
      | none => none

/-- Embeds fetcher._in_date_range (inclusive bounds; undated drops). -/
def in_date_range (d : Option Int) (start stop : Option Int) : Bool :=
  match d with
  | none => false
  | some dd =>
    (match start with | some a => decide (a ≤ dd) | none => true) &&
    (match stop with | some b => decide (dd ≤ b) | none => true)

def srcTag (s : Source) : String :=
  "[" ++ s.country ++ " | " ++ s.name ++ "]"

/-- Embeds the make_article closure for an RSS item: normalized url,
content-addressed id, url as fallback title, empty strings becoming None,
and the provenance raw dict. -/
def make_article (source : Source) (slug discovery_method endpoint_used nowIso : String)
    (it : RSSItem) : Article :=
  let url2 := normalize_url it.url
  { id := article_id slug url2 it.published_at
    country := source.country
    source_name := source.name
    source_slug := slug
    url := url2
    title := if it.title = "" then url2 else it.title
    published_at := it.published_at
    author := if it.author = "" then none else some it.author
    summary := if it.summary = "" then none else some it.summary
    content_text := none
    content_length := 0
    extraction_method := "rss"
    extraction_notes := []
    raw := [("discovery_method", .rstr discovery_method),
            ("endpoint_used", .rstr endpoint_used),
            ("fetched_at", .rstr nowIso),
            ("rss", .rdictPub it.published_at)] }

/-- push_rss_item applied to a parsed batch with the candidate cap checked
after every item: keep http urls, dedupe by url, stop at max_candidates. -/
def pushRss (acc : List RSSItem) (incoming : List RSSItem) (cap : Nat) : List RSSItem :=
  match incoming with
  | [] => acc
  | it :: rest =>
    let acc2 :=
      if it.url.startsWith "http" && acc.all (fun x => x.url ≠ it.url)
      then acc ++ [it] else acc
    if acc2.length ≥ cap then acc2 else pushRss acc2 rest cap

structure LoopState where
  rssItems : List RSSItem
  endpointUsed : Option String
  discoveryMethod : String
  log : List String
  trace : List NetEvent

/-- The endpoint loop: first enabled endpoint with a nonempty url is
remembered, RSS endpoints are fetched (a network event) and the loop breaks
once any candidates arrived. -/
def endpointLoop (env : DiscoveryEnv) (src : Source) (maxCand : Nat) :
    List Endpoint → LoopState → LoopState
  | [], st => st
  | ep :: rest, st =>
    let epType := pyUpper (pyStrip ep.etype)
    let epUrl := pyStrip ep.url
    if epUrl = "" then endpointLoop env src maxCand rest st
    else
      let st := { st with endpointUsed := some epUrl }
      if epType = "RSS" then
        let st := { st with
          discoveryMethod := "rss"
          trace := st.trace ++ [NetEvent.endpointGet epUrl] }
        match env.rssFetch epUrl with
        | none =>
          endpointLoop env src maxCand rest
            { st with log := st.log ++ [srcTag src ++ " RSS fetch failed: " ++ epUrl] }
        | some parsed =>
          let st := { st with
            log := st.log ++ [srcTag src ++ " RSS parsed: " ++ toString parsed.length
              ++ " entries from " ++ epUrl] }
          let newItems := pushRss st.rssItems parsed maxCand
          let st := { st with rssItems := newItems }
          if newItems.isEmpty then endpointLoop env src maxCand rest st
          else st
      else
        endpointLoop env src maxCand rest
          { st with log := st.log ++ [srcTag src ++ " Unknown endpoint type: "
            ++ epType ++ " url=" ++ epUrl] }

/-- The item-construction loop over collected RSS items (seen-url dedupe and
the candidate cap, both as in the source). -/
def buildFromRss (mk : RSSItem → Article) (maxCand : Nat) :
    List RSSItem → List String → List Article → List Article
  | [], _, acc => acc
  | it :: rest, seen, acc =>
    if seen.contains it.url then buildFromRss mk maxCand rest seen acc
    else
      let acc2 := acc ++ [mk it]
      if acc2.length ≥ maxCand then acc2
      else buildFromRss mk maxCand rest (it.url :: seen) acc2

/-- A falsy published_at (absent or empty) marks an item for date sniffing. -/
def pubMissing (a : Article) : Bool :=
  match a.published_at with
  | none => true
  | some s => s = ""

/-- The per-item effect of the date-sniff loop: on success the publish date
is stored and the id is recomputed from the new triple; on failure a
diagnostic note is appended. -/
def apply_sniff_result (slug : String) (res : Option String) (a : Article) : Article :=
  match res with
  | some p => { a with published_at := some p, id := article_id slug a.url (some p) }
  | none => { a with extraction_notes := a.extraction_notes ++ ["date_sniff_failed"] }

/-- The date-sniff pass over the items that lack a publish date, recording
one network event per sniffed item. -/
def sniffLoop (env : DiscoveryEnv) (slug : String) :
    List Article → List Article × List NetEvent
  | [] => ([], [])
  | a :: rest =>
    let tailRes := sniffLoop env slug rest
    if pubMissing a then
      (apply_sniff_result slug (env.sniffDate a.url) a :: tailRes.1,
        NetEvent.sniffGet a.url :: tailRes.2)
    else (a :: tailRes.1, tailRes.2)

/-- The mode normalization at the top of fetch_discovery_items: strip and
upper-case, unknown values silently become ANY. -/
def normalizeFetchMode (mode : String) : String :=
  let m := if mode = "" then "ANY" else pyUpper (pyStrip mode)
  if m = "ANY" || m = "LATEST_N" || m = "ON_DATE" || m = "DATE_RANGE" then m
  else "ANY"

/-- The date-mode section: ON_DATE and DATE_RANGE validate their arguments
(raising ValueError) and filter the items; other modes pass through. -/
def applyModeFilter (tag : String) (mode : String) (on_date date_from date_to : Option Int)
    (items : List Article) : Except String (List Article × List String) :=
  if mode = "ON_DATE" then
    match on_date with
    | none => .error "mode=ON_DATE requires on_date=<datetime.date>"
    | some d =>
      let kept := items.filter (fun a => iso_to_date a.published_at == some d)
      .ok (kept, [tag ++ " ON_DATE kept " ++ toString kept.length ++ " items"])
  else if mode = "DATE_RANGE" then
    match date_from, date_to with
    | none, none => .error "mode=DATE_RANGE requires date_from and/or date_to"
    | _, _ =>
      let kept := items.filter (fun a => in_date_range (iso_to_date a.published_at) date_from date_to)
      .ok (kept, [tag ++ " DATE_RANGE kept " ++ toString kept.length ++ " items"])
  else .ok (items, [])

/-- Code-point comparison of strings (Python string ordering). -/
def strLtB : List Char → List Char → Bool
  | [], [] => false
  | [], _ :: _ => true
  | _ :: _, [] => false
  | a :: as_, b :: bs =>
    if a.toNat < b.toNat then true
    else if b.toNat < a.toNat then false
    else strLtB as_ bs

def discoverySortKey (a : Article) : Nat × String :=
  let d := a.published_at.getD ""
  (if d ≠ "" then 1 else 0, d)

def keyLE (x y : Nat × String) : Bool :=
  x.1 < y.1 || (x.1 == y.1 && !(strLtB y.2.data x.2.data))

/-- The date-sort for the dated modes: stable descending by
(has-date, date-string), exactly list.sort(key, reverse=True). -/
def sortByDateDesc (l : List Article) : List Article :=
  l.mergeSort (fun a b => keyLE (discoverySortKey b) (discoverySortKey a))

/-- target_n: latest_n when positive, else limit_items, floored at 1. -/
def discovery_target_n (limit_items : Nat) (latest_n : Option Int) : Nat :=
  let t0 : Int := match latest_n with
    | some n => if n > 0 then n else (limit_items : Int)
    | none => (limit_items : Int)
  if t0 ≤ 0 then 1 else t0.toNat

/-- The candidate-pool cap max(target_n * prefetch_multiplier, target_n). -/
def discovery_max_candidates (target_n prefetch_multiplier : Nat) : Nat :=
  max (target_n * max 1 prefetch_multiplier) target_n

/-- fetch_discovery_items after mode normalization.  Returns either the
ValueError message or (items, log), together with the network trace. -/
def fetch_discovery_core (env : DiscoveryEnv) (source : Source) (limit_items : Nat)
    (mode : String) (latest_n : Option Int) (on_date date_from date_to : Option Int)
    (prefetch_multiplier : Nat) :
    Except String (List Article × List String) × List NetEvent :=
  let slug := safe_slug source.name
  let target_n := discovery_target_n limit_items latest_n
  let want_date_filter := mode = "ON_DATE" || mode = "DATE_RANGE"
  let maxCand := discovery_max_candidates target_n prefetch_multiplier
  let enabled := source.endpoints.filter (fun e => e.enabled)
  if enabled.isEmpty then
    (.ok ([], [srcTag source ++ " No enabled endpoints configured."]), [])
  else
    let st := endpointLoop env source maxCand enabled
      { rssItems := [], endpointUsed := none, discoveryMethod := "", log := [], trace := [] }
    match st.endpointUsed with
    | none =>
      (.ok ([], st.log ++ [srcTag source ++ " No endpoint used (configuration issue)."]), st.trace)
    | some epUsed =>
      let mk := make_article source slug st.discoveryMethod epUsed env.nowIso
      let items := if st.rssItems.isEmpty then [] else buildFromRss mk maxCand st.rssItems [] []
      let sniffed :=
        if want_date_filter then sniffLoop env slug items else (items, [])
      let trace2 := st.trace ++ sniffed.2
      match applyModeFilter (srcTag source) mode on_date date_from date_to sniffed.1 with
      | .error e => (.error e, trace2)
      | .ok (items3, flog) =>
        let items4 :=
          if mode = "LATEST_N" || mode = "ON_DATE" || mode = "DATE_RANGE"
          then sortByDateDesc items3 else items3
        let items5 := items4.take target_n
        let finalLog := st.log ++ flog ++
          [srcTag source ++ " Discovery=" ++ st.discoveryMethod ++ " endpoint=" ++ epUsed
            ++ " mode=" ++ mode ++ " returned=" ++ toString items5.length
            ++ " (target=" ++ toString target_n ++ ")"]
        (.ok (items5, finalLog), trace2)

/-- Embeds fetch_discovery_items (mode normalization then the body). -/
def fetch_discovery_items (env : DiscoveryEnv) (source : Source) (limit_items : Nat)
    (mode : String) (latest_n : Option Int) (on_date date_from date_to : Option Int)
    (prefetch_multiplier : Nat) :
    Except String (List Article × List String) × List NetEvent :=
  fetch_discovery_core env source limit_items (normalizeFetchMode mode) latest_n
    on_date date_from date_to prefetch_multiplier

/-- The article list of a discovery result (empty on the error branch). -/
def resultItems (r : Except String (List Article × List String) × List NetEvent) :
    List Article :=
  match r.1 with
  | .ok (items, _) => items
  | .error _ => []

/-! # Shared lemmas -/

theorem clampQ_nonneg (x : ℚ) : 0 ≤ clampQ x 0 100 := by
  unfold clampQ
  split
  · exact le_refl 0
  · split
    · norm_num
    · exact le_of_not_lt (by assumption)

theorem clampQ_le_100 (x : ℚ) : clampQ x 0 100 ≤ 100 := by
  unfold clampQ
  split
  · norm_num
  · split
    · exact le_refl 100
    · exact le_of_not_lt (by assumption)

theorem pyOrQ_zero_default (x : Option ℚ) : pyOrQ x 0 = x.getD 0 := by
  cases x with
  | none => rfl
  | some v =>
    simp only [pyOrQ, Option.getD]
    split
    · next h => rw [h]
    · rfl

theorem pyListOr_id (xs : List String) : pyListOr xs = xs := by
  unfold pyListOr
  split
  · next h => exact (List.isEmpty_iff.mp h).symm
  · rfl

theorem pyOrStrEmpty_id (s : String) : pyOrStrEmpty s = s := by
  unfold pyOrStrEmpty
  split
  · next h => exact h.symm
  · rfl

theorem pyOrNatZero_id (n : Nat) : pyOrNatZero n = n := by
  unfold pyOrNatZero
  split
  · next h => exact h.symm
  · rfl

/-! # Claims -/

/-- C9: compute_layer2_scores maps the per-article scorer over the list; the
scorer assigns all seven Layer-2 fields (they are some after it runs) and
leaves every other Article field unchanged. -/
theorem claim_C9_layer2_frame :
    ∀ (today : Int) (articles : List Article),
      compute_layer2_scores today articles = articles.map (compute_layer2_one today) ∧
      ∀ a : Article,
        ((compute_layer2_one today a).relevance_score.isSome = true ∧
         (compute_layer2_one today a).evidence_strength.isSome = true ∧
         (compute_layer2_one today a).evidence_numeric.isSome = true ∧
         (compute_layer2_one today a).urgency_score.isSome = true ∧
         (compute_layer2_one today a).keyword_intensity.isSome = true ∧
         (compute_layer2_one today a).prepriority_score.isSome = true ∧
         (compute_layer2_one today a).prepriority_bucket.isSome = true) ∧
        ((compute_layer2_one today a).id = a.id ∧
         (compute_layer2_one today a).country = a.country ∧
         (compute_layer2_one today a).source_name = a.source_name ∧
         (compute_layer2_one today a).source_slug = a.source_slug ∧
         (compute_layer2_one today a).url = a.url ∧
         (compute_layer2_one today a).title = a.title ∧
         (compute_layer2_one today a).published_at = a.published_at ∧
         (compute_layer2_one today a).author = a.author ∧
         (compute_layer2_one today a).summary = a.summary ∧
         (compute_layer2_one today a).content_text = a.content_text ∧
         (compute_layer2_one today a).content_length = a.content_length ∧
         (compute_layer2_one today a).extraction_method = a.extraction_method ∧
         (compute_layer2_one today a).extraction_notes = a.extraction_notes ∧
         (compute_layer2_one today a).run_id = a.run_id ∧
         (compute_layer2_one today a).run_created_at = a.run_created_at ∧
         (compute_layer2_one today a).fetched_at = a.fetched_at ∧
         (compute_layer2_one today a).keywords_matched = a.keywords_matched ∧
         (compute_layer2_one today a).keywords_national_matched = a.keywords_national_matched ∧
         (compute_layer2_one today a).keywords_threat_matched = a.keywords_threat_matched ∧
         (compute_layer2_one today a).national_relevant = a.national_relevant ∧
         (compute_layer2_one today a).threat_relevant = a.threat_relevant ∧
         (compute_layer2_one today a).shortlisted = a.shortlisted ∧
         (compute_layer2_one today a).kw_national_hits = a.kw_national_hits ∧
         (compute_layer2_one today a).kw_threat_hits = a.kw_threat_hits ∧
         (compute_layer2_one today a).threat_score = a.threat_score ∧
         (compute_layer2_one today a).threat_level = a.threat_level ∧
         (compute_layer2_one today a).threat_vector = a.threat_vector ∧
         (compute_layer2_one today a).one_liner_threat = a.one_liner_threat ∧
         (compute_layer2_one today a).reasons = a.reasons ∧
         (compute_layer2_one today a).risk_index = a.risk_index ∧
         (compute_layer2_one today a).truth_score = a.truth_score ∧
         (compute_layer2_one today a).truth_label = a.truth_label ∧
         (compute_layer2_one today a).truth_reasons = a.truth_reasons ∧
         (compute_layer2_one today a).threat_factors = a.threat_factors ∧
         (compute_layer2_one today a).raw = a.raw) := by
  intro today articles
  refine ⟨rfl, fun a => ⟨?_, ?_⟩⟩
  · exact ⟨rfl, rfl, rfl, rfl, rfl, rfl, rfl⟩
  · repeat' apply And.intro
    all_goals rfl

/-- C5: on the scenario completion text the greedy first-to-last-brace JSON
object is extracted, and the article ends with threat_score 82, level
CRITICAL, vector OTHER (bomb is not in the enum) and exactly the first four
reasons. -/
def c5_completion : String :=
  "blah blah \x7b\"threat_score\": 82, \"threat_vector\": \"bomb\", \"reasons\": [\"a\",\"b\",\"c\",\"d\",\"e\"]\x7d trailing junk"

def c5_article : Article :=
  { id := "a5", country := "PK", source_name := "s", source_slug := "s",
    url := "http://x/a", title := "t" }

/-- C5: the scenario completion parses to the expected object and Layer 3
stores threat_score 82.0, level CRITICAL, vector OTHER, and the reasons
truncated to four. -/
theorem claim_C5_llm_parse_scenario :
    extract_json_object c5_completion =
      some [("threat_score", Json.num 82), ("threat_vector", Json.str "bomb"),
            ("reasons", Json.arr [Json.str "a", Json.str "b", Json.str "c",
                                  Json.str "d", Json.str "e"])] ∧
    (run_layer3_on_completion c5_article c5_completion).threat_score = some 82 ∧
    (run_layer3_on_completion c5_article c5_completion).threat_level = some "CRITICAL" ∧
    (run_layer3_on_completion c5_article c5_completion).threat_vector = some "OTHER" ∧
    (run_layer3_on_completion c5_article c5_completion).reasons = ["a", "b", "c", "d"] := by
  refine ⟨rfl, by decide, by decide, by decide, by decide⟩

/-- C3 counterexample: an article whose urgency_score is present but 0.0
gets the default 20 substituted (Python `or` treats 0.0 as falsy), so the
stored risk_index 4.5 differs from the spec formula value 2.5, refuting
"the default is substituted exactly when the input is absent". -/
def c3_zero_article : Article :=
  { id := "c3", country := "", source_name := "", source_slug := "", url := "",
    title := "", urgency_score := some 0 }

theorem claim_C3_counterexample :
    c3_zero_article.urgency_score = some 0 ∧
    (compute_risk_index_one c3_zero_article).risk_index = some 4.5 ∧
    risk_index_spec c3_zero_article = 2.5 ∧
    (compute_risk_index_one c3_zero_article).risk_index ≠
      some (risk_index_spec c3_zero_article) := by
  decide

/-- C3 (amended): compute_risk_index stores
clamp(0.45 T + 0.35 R + 0.10 U + 0.10 E, 0, 100), always inside the range
0..100; the documented defaults (urgency 20, evidence 25, and 0 for the two
other inputs) are substituted when those inputs are absent or when they are
zero, so the spec formula with absence-only defaults is obtained whenever
the stored urgency and evidence values are not the falsy 0.0. -/
theorem claim_C3_amended :
    ∀ a : Article, ∃ r : ℚ,
      (compute_risk_index_one a).risk_index = some r ∧
      0 ≤ r ∧ r ≤ 100 ∧
      (a.urgency_score ≠ some 0 → a.evidence_numeric ≠ some 0 →
        r = risk_index_spec a) := by
  intro a
  refine ⟨_, rfl, clampQ_nonneg _, clampQ_le_100 _, ?_⟩
  intro hu he
  unfold risk_index_spec
  have h1 : pyOrQ a.threat_score 0 = a.threat_score.getD 0 := pyOrQ_zero_default _
  have h2 : pyOrQ a.relevance_score 0 = a.relevance_score.getD 0 := pyOrQ_zero_default _
  have h3 : pyOrQ a.urgency_score 20 = a.urgency_score.getD 20 := by
    cases hx : a.urgency_score with
    | none => rfl
    | some v =>
      have : v ≠ 0 := fun hv => hu (by rw [hx, hv])
      simp [pyOrQ, this]
  have h4 : pyOrQ a.evidence_numeric 25 = a.evidence_numeric.getD 25 := by
    cases hx : a.evidence_numeric with
    | none => rfl
    | some v =>
      have : v ≠ 0 := fun hv => he (by rw [hx, hv])
      simp [pyOrQ, this]
  rw [h1, h2, h3, h4]

/-- C3 witness article (all four inputs present and nonzero). -/
def c3_witness_article : Article :=
  { id := "w3", country := "", source_name := "", source_slug := "", url := "",
    title := "", threat_score := some 50, relevance_score := some 40,
    urgency_score := some 30, evidence_numeric := some 60 }

theorem claim_C3_witness :
    (compute_risk_index_one c3_witness_article).risk_index =
      some (risk_index_spec c3_witness_article) := by
  obtain ⟨r, h1, _, _, h4⟩ := claim_C3_amended c3_witness_article
  rw [h1, h4 (by decide) (by decide)]

/-- C1 counterexample input: the haystack contains the substrings Islamabad
and bomb blast kills 5 (and no whole-word Pakistan), has 3 national and 2
threat hits, a non-Pakistani source country and a 0-day-old date, but the
leading X denies the word-bounded location match (relevance 30, not 55) and
the extra Ministry / district / report / attributed-quote signals push the
evidence points to 10 (HIGH, not MED). -/
def c1_today : Int := daysFromCivil 2026 10 12

def c1_bad_article : Article :=
  { id := "c1b", country := "INDIA", source_name := "s", source_slug := "s",
    url := "", title := "XIslamabad bomb blast kills 5 in the district, Ministry report said \"yes\"",
    published_at := some "2026-10-12",
    kw_national_hits := ["k1", "k2", "k3"], kw_threat_hits := ["t1", "t2"] }

theorem claim_C1_counterexample :
    (containsSubstr (haystack c1_bad_article) "Islamabad" = true ∧
     containsSubstr (haystack c1_bad_article) "bomb blast kills 5" = true ∧
     count_explicit_pakistan_mentions (haystack c1_bad_article) = 0 ∧
     (pyOrList c1_bad_article.kw_national_hits
       c1_bad_article.keywords_national_matched).length = 3 ∧
     (pyOrList c1_bad_article.kw_threat_hits
       c1_bad_article.keywords_threat_matched).length = 2 ∧
     pyUpper (pyStrip c1_bad_article.country) ≠ "PAKISTAN" ∧
     ageDays c1_today c1_bad_article.published_at = 0) ∧
    ((compute_layer2_one c1_today c1_bad_article).relevance_score ≠ some 55 ∧
     (compute_layer2_one c1_today c1_bad_article).evidence_strength ≠ some "MED" ∧
     (compute_layer2_one c1_today c1_bad_article).evidence_numeric ≠ some 60 ∧
     (compute_layer2_one c1_today c1_bad_article).prepriority_score ≠ some 58.75) := by
  decide

/-- C1 (amended): for an article whose haystack matches the location pattern
(for example whole-word Islamabad), has no whole-word Pakistan, triggers
exactly the numeric and location evidence heuristics (no named entity, no
citation, no attributed quote), carries exactly 3 national and 2 threat
keyword hits, a non-PAKISTAN source country and a publish date 0 days old,
Layer 2 computes relevance 55, urgency 68, evidence MED with numeric 60,
keyword intensity 50, prepriority 58.75 and the MEDIUM bucket. -/
theorem claim_C1_amended :
    ∀ (today : Int) (a : Article),
      pakLocationHit (haystack a) = true →
      count_explicit_pakistan_mentions (haystack a) = 0 →
      numericHit (haystack a) = true →
      namedEntityHit (haystack a) = false →
      citationHit (haystack a) = false →
      (quoteCharPresent (haystack a) && quoteAttribHit (haystack a)) = false →
      (pyOrList a.kw_national_hits a.keywords_national_matched).length = 3 →
      (pyOrList a.kw_threat_hits a.keywords_threat_matched).length = 2 →
      pyUpper (pyStrip a.country) ≠ "PAKISTAN" →
      ageDays today a.published_at = 0 →
      (compute_layer2_one today a).relevance_score = some 55 ∧
      (compute_layer2_one today a).urgency_score = some 68 ∧
      (compute_layer2_one today a).evidence_strength = some "MED" ∧
      (compute_layer2_one today a).evidence_numeric = some 60 ∧
      (compute_layer2_one today a).keyword_intensity = some 50 ∧
      (compute_layer2_one today a).prepriority_score = some 58.75 ∧
      (compute_layer2_one today a).prepriority_bucket = some "MEDIUM" := by
  intro today a hLoc hPak hNum hNE hCit hQuote hNat hThr hCountry hAge
  have hR : compute_relevance a = 55 := by
    norm_num [compute_relevance, hNat, hPak, hLoc, hCountry, minQ]
  have hPts : evidence_points a = 4 := by
    norm_num [evidence_points, hNE, hNum, hLoc, hCit, hQuote]
  have hU : compute_urgency today a = 68 := by
    norm_num [compute_urgency, hAge, hThr, clampQ]
  have hK : compute_keyword_intensity a = 50 := by
    norm_num [compute_keyword_intensity, hNat, hThr, clampQ]
  simp only [compute_layer2_one, hR, hPts, hU, hK]
  norm_num [evidence_bucket_and_numeric, clampQ, prepriority_bucket]

/-- C1 witness input: the scenario haystack itself. -/
def c1_scenario_article : Article :=
  { id := "c1w", country := "INDIA", source_name := "s", source_slug := "s",
    url := "", title := "Islamabad bomb blast kills 5",
    published_at := some "2026-10-12",
    kw_national_hits := ["k1", "k2", "k3"], kw_threat_hits := ["t1", "t2"] }

theorem claim_C1_witness :
    (pakLocationHit (haystack c1_scenario_article) = true ∧
     count_explicit_pakistan_mentions (haystack c1_scenario_article) = 0 ∧
     numericHit (haystack c1_scenario_article) = true ∧
     namedEntityHit (haystack c1_scenario_article) = false ∧
     citationHit (haystack c1_scenario_article) = false ∧
     (quoteCharPresent (haystack c1_scenario_article) &&
       quoteAttribHit (haystack c1_scenario_article)) = false ∧
     (pyOrList c1_scenario_article.kw_national_hits
       c1_scenario_article.keywords_national_matched).length = 3 ∧
     (pyOrList c1_scenario_article.kw_threat_hits
       c1_scenario_article.keywords_threat_matched).length = 2 ∧
     pyUpper (pyStrip c1_scenario_article.country) ≠ "PAKISTAN" ∧
     ageDays c1_today c1_scenario_article.published_at = 0) ∧
    ((compute_layer2_one c1_today c1_scenario_article).relevance_score = some 55 ∧
     (compute_layer2_one c1_today c1_scenario_article).urgency_score = some 68 ∧
     (compute_layer2_one c1_today c1_scenario_article).evidence_strength = some "MED" ∧
     (compute_layer2_one c1_today c1_scenario_article).evidence_numeric = some 60 ∧
     (compute_layer2_one c1_today c1_scenario_article).keyword_intensity = some 50 ∧
     (compute_layer2_one c1_today c1_scenario_article).prepriority_score = some 58.75 ∧
     (compute_layer2_one c1_today c1_scenario_article).prepriority_bucket = some "MEDIUM") :=
  ⟨by decide,
   claim_C1_amended c1_today c1_scenario_article (by decide) (by decide) (by decide)
     (by decide) (by decide) (by decide) (by decide) (by decide) (by decide) (by decide)⟩

attribute [ext] Article

/-- The funnel flag of a processed article is exactly the conjunction of its
two recomputed hit lists being nonempty. -/
theorem shortlist_one_flag (nk tk : List String) (a : Article) :
    (shortlist_one nk tk a).shortlisted =
      some (!(shortlist_one nk tk a).kw_national_hits.isEmpty &&
            !(shortlist_one nk tk a).kw_threat_hits.isEmpty) := by
  simp only [shortlist_one]
  split
  · next h => simp [write_layer1_fields, h]
  · next h => simp [write_layer1_fields]

/-- C4: after the two-layer shortlist filter, every article satisfies
shortlisted = (national hits nonempty and threat hits nonempty), the threat
pass is a sublist of the national pass, which is a sublist of the processed
input list, and the three funnel fields are recomputed from scratch: any
previous values of the funnel fields leave the output unchanged. -/
theorem claim_C4_shortlist_funnel :
    ∀ (articles : List Article) (nk tk : List String),
      ((shortlist_articles_two_layer articles nk tk).articles_all.all
        (fun a => a.shortlisted ==
          some (!a.kw_national_hits.isEmpty && !a.kw_threat_hits.isEmpty))) = true ∧
      ((shortlist_articles_two_layer articles nk tk).threat_pass.Sublist
        (shortlist_articles_two_layer articles nk tk).national_pass) ∧
      ((shortlist_articles_two_layer articles nk tk).national_pass.Sublist
        (shortlist_articles_two_layer articles nk tk).articles_all) ∧
      (shortlist_articles_two_layer articles nk tk).articles_all =
        articles.map (shortlist_one nk tk) ∧
      ∀ (a : Article) (jN jT jKNM jKTM : List String) (jSL jNR jTR : Option Bool),
        shortlist_one nk tk
          { a with
            kw_national_hits := jN, kw_threat_hits := jT,
            keywords_national_matched := jKNM, keywords_threat_matched := jKTM,
            shortlisted := jSL, national_relevant := jNR, threat_relevant := jTR } =
        shortlist_one nk tk a := by
  intro articles nk tk
  refine ⟨?_, ?_, ?_, rfl, ?_⟩
  · rw [List.all_eq_true]
    intro x hx
    simp only [shortlist_articles_two_layer, List.mem_map] at hx
    obtain ⟨a, _, rfl⟩ := hx
    rw [beq_iff_eq]
    exact shortlist_one_flag nk tk a
  · simp only [shortlist_articles_two_layer]
    exact List.filter_sublist _
  · simp only [shortlist_articles_two_layer]
    exact List.filter_sublist _
  · intro a jN jT jKNM jKTM jSL jNR jTR
    rfl

/-- C8 (amended): serialization round-trips losslessly on every field for
every article on which the from_dict compatibility fallbacks stay inert:
keywords_matched empty or keywords_national_matched nonempty, and each
explicit kw hit list nonempty or its raw mirror empty. -/
theorem claim_C8_amended :
    ∀ a : Article,
      (a.keywords_matched = [] ∨ a.keywords_national_matched ≠ []) →
      (a.kw_national_hits ≠ [] ∨ rawStrList a.raw "kw_national_hits" = []) →
      (a.kw_threat_hits ≠ [] ∨ rawStrList a.raw "kw_threat_hits" = []) →
      from_dict (to_dict a) = a := by
  intro a h1 h2 h3
  have hkn : (from_dict (to_dict a)).keywords_national_matched =
      a.keywords_national_matched := by
    simp only [from_dict, to_dict, pyListOr_id]
    rcases h1 with h | h
    · rw [h]
      simp
    · have hne : a.keywords_national_matched.isEmpty = false := by
        cases hc : a.keywords_national_matched with
        | nil => exact absurd hc h
        | cons _ _ => rfl
      rw [hne]
      simp
  have hn : (from_dict (to_dict a)).kw_national_hits = a.kw_national_hits := by
    simp only [from_dict, to_dict, pyListOr_id]
    by_cases hk : a.kw_national_hits = []
    · rcases h2 with h | h
      · exact absurd hk h
      · rw [hk, h]
        rfl
    · have hne : a.kw_national_hits.isEmpty = false := by
        cases hc : a.kw_national_hits with
        | nil => exact absurd hc hk
        | cons _ _ => rfl
      simp [pyOrList, hne]
  have ht : (from_dict (to_dict a)).kw_threat_hits = a.kw_threat_hits := by
    simp only [from_dict, to_dict, pyListOr_id]
    by_cases hk : a.kw_threat_hits = []
    · rcases h3 with h | h
      · exact absurd hk h
      · rw [hk, h]
        rfl
    · have hne : a.kw_threat_hits.isEmpty = false := by
        cases hc : a.kw_threat_hits with
        | nil => exact absurd hc hk
        | cons _ _ => rfl
      simp [pyOrList, hne]
  apply Article.ext <;>
    first
      | exact hkn
      | exact hn
      | exact ht
      | rfl
      | simp [from_dict, to_dict, pyOrStrEmpty_id, pyOrNatZero_id, pyListOr_id]

/-- C8 counterexample: an article with a legacy keywords_matched entry and an
empty keywords_national_matched does not round-trip: from_dict carries the
legacy list into keywords_national_matched. -/
def c8_bad_article : Article :=
  { id := "c8", country := "", source_name := "", source_slug := "", url := "",
    title := "", keywords_matched := ["x"] }

theorem claim_C8_counterexample :
    c8_bad_article.keywords_national_matched = [] ∧
    (from_dict (to_dict c8_bad_article)).keywords_national_matched = ["x"] ∧
    from_dict (to_dict c8_bad_article) ≠ c8_bad_article := by
  decide

/-- C8 witness article: fallbacks inert (hit lists nonempty, raw mirror
consistent), scores present. -/
def c8_good_article : Article :=
  { id := "c8w", country := "PK", source_name := "n", source_slug := "s",
    url := "http://x", title := "t", published_at := some "2024-03-15",
    content_length := 5, extraction_notes := ["n1"],
    keywords_matched := ["Pakistan", "bomb"],
    keywords_national_matched := ["Pakistan"],
    keywords_threat_matched := ["bomb"],
    national_relevant := some true, threat_relevant := some true,
    shortlisted := some true,
    kw_national_hits := ["Pakistan"], kw_threat_hits := ["bomb"],
    relevance_score := some 55, evidence_strength := some "MED",
    evidence_numeric := some 60, urgency_score := some 68,
    keyword_intensity := some 50, prepriority_score := some 58.75,
    prepriority_bucket := some "MEDIUM", threat_score := some 82,
    threat_level := some "CRITICAL", threat_vector := some "OTHER",
    one_liner_threat := some "o", reasons := ["a", "b"],
    risk_index := some 77,
    raw := [("kw_national_hits", .rlist ["Pakistan"]),
            ("kw_threat_hits", .rlist ["bomb"]),
            ("kw_shortlisted", .rbool true)] }

theorem claim_C8_witness :
    (c8_good_article.keywords_matched = [] ∨
      c8_good_article.keywords_national_matched ≠ []) ∧
    (c8_good_article.kw_national_hits ≠ [] ∨
      rawStrList c8_good_article.raw "kw_national_hits" = []) ∧
    (c8_good_article.kw_threat_hits ≠ [] ∨
      rawStrList c8_good_article.raw "kw_threat_hits" = []) ∧
    from_dict (to_dict c8_good_article) = c8_good_article :=
  ⟨by decide, by decide, by decide,
   claim_C8_amended c8_good_article (by decide) (by decide) (by decide)⟩

theorem applyModeFilter_any (tag : String) (od df dt : Option Int)
    (items : List Article) :
    applyModeFilter tag "ANY" od df dt items = .ok (items, []) := by
  unfold applyModeFilter
  rw [if_neg (by decide), if_neg (by decide)]

/-- A run of the core in (normalized) ANY mode always returns ok. -/
theorem core_any_ok (env : DiscoveryEnv) (source : Source) (li : Nat)
    (ln od df dt : Option Int) (pm : Nat) :
    ∃ items lg,
      (fetch_discovery_core env source li "ANY" ln od df dt pm).1 =
        Except.ok (items, lg) := by
  simp only [fetch_discovery_core, applyModeFilter_any]
  split
  · exact ⟨_, _, rfl⟩
  · split
    · exact ⟨_, _, rfl⟩
    · exact ⟨_, _, rfl⟩

/-- C10: any mode string whose trimmed upper-casing is none of the four
known modes is silently normalized to ANY: the run is identical to an ANY
run and no error is raised. -/
theorem claim_C10_unknown_mode :
    ∀ (env : DiscoveryEnv) (source : Source) (li : Nat) (mode : String)
      (ln od df dt : Option Int) (pm : Nat),
      ¬(pyUpper (pyStrip mode) = "ANY" ∨ pyUpper (pyStrip mode) = "LATEST_N" ∨
        pyUpper (pyStrip mode) = "ON_DATE" ∨ pyUpper (pyStrip mode) = "DATE_RANGE") →
      fetch_discovery_items env source li mode ln od df dt pm =
        fetch_discovery_items env source li "ANY" ln od df dt pm ∧
      ∃ items lg,
        (fetch_discovery_items env source li mode ln od df dt pm).1 =
          Except.ok (items, lg) := by
  intro env source li mode ln od df dt pm h
  have hm : normalizeFetchMode mode = "ANY" := by
    by_cases h0 : mode = ""
    · subst h0
      decide
    · have h1 : pyUpper (pyStrip mode) ≠ "ANY" := fun hh => h (Or.inl hh)
      have h2 : pyUpper (pyStrip mode) ≠ "LATEST_N" := fun hh => h (Or.inr (Or.inl hh))
      have h3 : pyUpper (pyStrip mode) ≠ "ON_DATE" :=
        fun hh => h (Or.inr (Or.inr (Or.inl hh)))
      have h4 : pyUpper (pyStrip mode) ≠ "DATE_RANGE" :=
        fun hh => h (Or.inr (Or.inr (Or.inr hh)))
      simp [normalizeFetchMode, h0, h1, h2, h3, h4]
  have hAny : normalizeFetchMode "ANY" = "ANY" := by decide
  have heq : fetch_discovery_items env source li mode ln od df dt pm =
      fetch_discovery_items env source li "ANY" ln od df dt pm := by
    unfold fetch_discovery_items
    rw [hm, hAny]
  refine ⟨heq, ?_⟩
  rw [heq]
  unfold fetch_discovery_items
  rw [hAny]
  exact core_any_ok env source li ln od df dt pm

/-- C10 witness inputs: a mode string that is not a known mode. -/
def c10_env : DiscoveryEnv :=
  { rssFetch := fun _ => some [{ url := "http://x/a", title := "T" }],
    sniffDate := fun _ => none, nowIso := "now" }

def c10_source : Source :=
  { country := "PK", name := "S",
    endpoints := [{ etype := "RSS", url := "http://x/feed" }] }

theorem claim_C10_witness :
    (¬(pyUpper (pyStrip "weird mode") = "ANY" ∨
       pyUpper (pyStrip "weird mode") = "LATEST_N" ∨
       pyUpper (pyStrip "weird mode") = "ON_DATE" ∨
       pyUpper (pyStrip "weird mode") = "DATE_RANGE")) ∧
    fetch_discovery_items c10_env c10_source 10 "weird mode" none none none none 6 =
      fetch_discovery_items c10_env c10_source 10 "ANY" none none none none 6 ∧
    ∃ items lg,
      (fetch_discovery_items c10_env c10_source 10 "weird mode" none none none none 6).1 =
        Except.ok (items, lg) :=
  ⟨by decide,
   (claim_C10_unknown_mode c10_env c10_source 10 "weird mode" none none none none 6
      (by decide)).1,
   (claim_C10_unknown_mode c10_env c10_source 10 "weird mode" none none none none 6
      (by decide)).2⟩

theorem applyModeFilter_on_date_none (tag : String) (df dt : Option Int)
    (items : List Article) :
    applyModeFilter tag "ON_DATE" none df dt items =
      .error "mode=ON_DATE requires on_date=<datetime.date>" := by
  unfold applyModeFilter
  rw [if_pos rfl]

theorem applyModeFilter_range_none (tag : String) (od : Option Int)
    (items : List Article) :
    applyModeFilter tag "DATE_RANGE" od none none items =
      .error "mode=DATE_RANGE requires date_from and/or date_to" := by
  unfold applyModeFilter
  rw [if_neg (by decide), if_pos rfl]

/-- The endpoint loop over a single enabled RSS endpoint with a nonempty
url: whatever the fetch returns, the endpoint is remembered and its network
request is the first (and only) endpoint event of the trace. -/
theorem endpointLoop_single_rss (env : DiscoveryEnv) (src : Source) (mc : Nat)
    (e : Endpoint) (hurl : pyStrip e.url ≠ "")
    (htype : pyUpper (pyStrip e.etype) = "RSS") :
    ∃ (ri : List RSSItem) (lg : List String),
      endpointLoop env src mc [e]
        { rssItems := [], endpointUsed := none, discoveryMethod := "",
          log := [], trace := [] } =
      { rssItems := ri, endpointUsed := some (pyStrip e.url),
        discoveryMethod := "rss", log := lg,
        trace := [NetEvent.endpointGet (pyStrip e.url)] } := by
  simp only [endpointLoop, if_neg hurl, htype, if_pos]
  cases hf : env.rssFetch (pyStrip e.url) with
  | none => exact ⟨_, _, rfl⟩
  | some parsed =>
    simp only [ite_self]
    exact ⟨_, _, rfl⟩

/-- C6 (amended): a discovery call in ON_DATE mode without on_date, or in
DATE_RANGE mode with neither bound, is rejected with the descriptive
ValueError, but only after network activity: for a source whose single
enabled endpoint is a nonempty-url RSS feed, the endpoint fetch is the
first recorded network request and the error is produced after the fetch
(and after any date sniffing) has run. -/
theorem claim_C6_amended :
    ∀ (env : DiscoveryEnv) (source : Source) (li : Nat) (ln : Option Int)
      (od df dt : Option Int) (pm : Nat) (e : Endpoint),
      source.endpoints.filter (fun x => x.enabled) = [e] →
      pyStrip e.url ≠ "" →
      pyUpper (pyStrip e.etype) = "RSS" →
      ((fetch_discovery_items env source li "ON_DATE" ln none df dt pm).1 =
          Except.error "mode=ON_DATE requires on_date=<datetime.date>" ∧
        (fetch_discovery_items env source li "ON_DATE" ln none df dt pm).2.head? =
          some (NetEvent.endpointGet (pyStrip e.url))) ∧
      ((fetch_discovery_items env source li "DATE_RANGE" ln od none none pm).1 =
          Except.error "mode=DATE_RANGE requires date_from and/or date_to" ∧
        (fetch_discovery_items env source li "DATE_RANGE" ln od none none pm).2.head? =
          some (NetEvent.endpointGet (pyStrip e.url))) := by
  intro env source li ln od df dt pm e hfil hurl htype
  obtain ⟨ri, lg, heq⟩ := endpointLoop_single_rss env source
    (discovery_max_candidates (discovery_target_n li ln) pm) e hurl htype
  constructor
  · have hnorm : normalizeFetchMode "ON_DATE" = "ON_DATE" := by decide
    unfold fetch_discovery_items
    rw [hnorm]
    simp only [fetch_discovery_core, hfil, List.isEmpty_cons, heq,
      applyModeFilter_on_date_none]
    constructor
    · rfl
    · simp
  · have hnorm : normalizeFetchMode "DATE_RANGE" = "DATE_RANGE" := by decide
    unfold fetch_discovery_items
    rw [hnorm]
    simp only [fetch_discovery_core, hfil, List.isEmpty_cons, heq,
      applyModeFilter_range_none]
    constructor
    · rfl
    · simp

/-- C6 counterexample inputs: the concrete run performs its endpoint fetch
(one network request in the trace) and only then raises the ValueError,
refuting rejection before any network activity. -/
def c6_env : DiscoveryEnv :=
  { rssFetch := fun _ => none, sniffDate := fun _ => none, nowIso := "now" }

def c6_source : Source :=
  { country := "PK", name := "S",
    endpoints := [{ etype := "RSS", url := "http://example.net/feed" }] }

theorem claim_C6_counterexample :
    (fetch_discovery_items c6_env c6_source 100 "ON_DATE" none none none none 6).1 =
      Except.error "mode=ON_DATE requires on_date=<datetime.date>" ∧
    (fetch_discovery_items c6_env c6_source 100 "ON_DATE" none none none none 6).2 =
      [NetEvent.endpointGet "http://example.net/feed"] :=
  ⟨rfl, rfl⟩

/-- C6 witness inputs: a successful fetch also sniffs a date before the
error surfaces. -/
def c6_env2 : DiscoveryEnv :=
  { rssFetch := fun _ => some [{ url := "http://x/a", title := "T" }],
    sniffDate := fun _ => some "2024-03-15", nowIso := "now" }

theorem claim_C6_witness :
    (c6_source.endpoints.filter (fun x => x.enabled) =
      [{ etype := "RSS", url := "http://example.net/feed" }] ∧
     pyStrip (Endpoint.url { etype := "RSS", url := "http://example.net/feed" }) ≠ "" ∧
     pyUpper (pyStrip (Endpoint.etype { etype := "RSS", url := "http://example.net/feed" })) = "RSS") ∧
    (((fetch_discovery_items c6_env2 c6_source 100 "ON_DATE" none none none none 6).1 =
        Except.error "mode=ON_DATE requires on_date=<datetime.date>" ∧
      (fetch_discovery_items c6_env2 c6_source 100 "ON_DATE" none none none none 6).2.head? =
        some (NetEvent.endpointGet "http://example.net/feed")) ∧
     ((fetch_discovery_items c6_env2 c6_source 100 "DATE_RANGE" none none none none 6).1 =
        Except.error "mode=DATE_RANGE requires date_from and/or date_to" ∧
      (fetch_discovery_items c6_env2 c6_source 100 "DATE_RANGE" none none none none 6).2.head? =
        some (NetEvent.endpointGet "http://example.net/feed"))) :=
  ⟨⟨by decide, by decide, by decide⟩,
   claim_C6_amended c6_env2 c6_source 100 none none none none 6
     { etype := "RSS", url := "http://example.net/feed" }
     (by decide) (by decide) (by decide)⟩

/-- The id invariant discovery maintains: the article carries the run slug
and its id is the content-addressed hash of its own (slug, url,
published_at) triple. -/
def article_id_inv (slug : String) (a : Article) : Prop :=
  a.source_slug = slug ∧ a.id = article_id slug a.url a.published_at

theorem make_article_inv (source : Source) (slug dm eu now : String) (it : RSSItem) :
    article_id_inv slug (make_article source slug dm eu now it) := by
  unfold article_id_inv
  constructor
  · simp only [make_article]
  · simp only [make_article]

theorem buildFromRss_inv (source : Source) (slug dm eu now : String) (mc : Nat) :
    ∀ (l : List RSSItem) (seen : List String) (acc : List Article),
      (∀ x ∈ acc, article_id_inv slug x) →
      ∀ x ∈ buildFromRss (make_article source slug dm eu now) mc l seen acc,
        article_id_inv slug x := by
  intro l
  induction l with
  | nil =>
    intro seen acc hacc x hx
    exact hacc x hx
  | cons it rest ih =>
    intro seen acc hacc x hx
    simp only [buildFromRss] at hx
    split at hx
    · exact ih seen acc hacc x hx
    · have hacc2 : ∀ y ∈ acc ++ [make_article source slug dm eu now it],
          article_id_inv slug y := by
        intro y hy
        rcases List.mem_append.mp hy with h | h
        · exact hacc y h
        · rw [List.mem_singleton.mp h]
          exact make_article_inv source slug dm eu now it
      split at hx
      · exact hacc2 x hx
      · exact ih _ _ hacc2 x hx

theorem apply_sniff_result_inv (slug : String) (r : Option String) (a : Article)
    (h : article_id_inv slug a) :
    article_id_inv slug (apply_sniff_result slug r a) := by
  cases r with
  | none => exact h
  | some p =>
    constructor
    · simp only [apply_sniff_result]
      exact h.1
    · simp only [apply_sniff_result]

theorem sniffLoop_inv (env : DiscoveryEnv) (slug : String) :
    ∀ l : List Article, (∀ x ∈ l, article_id_inv slug x) →
      ∀ x ∈ (sniffLoop env slug l).1, article_id_inv slug x := by
  intro l
  induction l with
  | nil =>
    intro _ x hx
    simp [sniffLoop] at hx
  | cons a rest ih =>
    intro h x hx
    have hhead : article_id_inv slug a := h a (List.mem_cons_self a rest)
    have htail := fun y hy => h y (List.mem_cons_of_mem a hy)
    simp only [sniffLoop] at hx
    split at hx
    · rcases List.mem_cons.mp hx with hh | hh
      · rw [hh]
        exact apply_sniff_result_inv slug _ a hhead
      · exact ih htail x hh
    · rcases List.mem_cons.mp hx with hh | hh
      · rw [hh]
        exact hhead
      · exact ih htail x hh

theorem applyModeFilter_ok_mem (tag mode : String) (od df dt : Option Int)
    (items its : List Article) (lg : List String)
    (h : applyModeFilter tag mode od df dt items = .ok (its, lg)) :
    ∀ x ∈ its, x ∈ items := by
  unfold applyModeFilter at h
  split at h
  · cases od with
    | none => exact absurd h (by simp)
    | some d =>
      simp only [Except.ok.injEq, Prod.mk.injEq] at h
      rw [← h.1]
      intro x hx
      exact List.mem_of_mem_filter hx
  · split at h
    · split at h
      · exact absurd h (by simp)
      all_goals
        simp only [Except.ok.injEq, Prod.mk.injEq] at h
        rw [← h.1]
        intro x hx
        exact List.mem_of_mem_filter hx
    · simp only [Except.ok.injEq, Prod.mk.injEq] at h
      rw [← h.1]
      exact fun x hx => hx

theorem forall_mem_ite {α : Type} {P : α → Prop} {c : Prop} [Decidable c]
    {l1 l2 : List α} (h1 : ∀ y ∈ l1, P y) (h2 : ∀ y ∈ l2, P y) :
    ∀ y ∈ (if c then l1 else l2), P y := by
  split
  · exact h1
  · exact h2

/-- Every article in a successful discovery result satisfies the id
invariant for the run slug. -/
theorem core_items_inv (env : DiscoveryEnv) (source : Source) (li : Nat)
    (mode : String) (ln od df dt : Option Int) (pm : Nat)
    (items : List Article) (lg : List String)
    (h : (fetch_discovery_core env source li mode ln od df dt pm).1 =
      Except.ok (items, lg)) :
    ∀ x ∈ items, article_id_inv (safe_slug source.name) x := by
  simp only [fetch_discovery_core] at h
  split at h
  · simp only [Except.ok.injEq, Prod.mk.injEq] at h
    intro x hx
    rw [← h.1] at hx
    exact absurd hx (List.not_mem_nil x)
  · split at h
    · simp only [Except.ok.injEq, Prod.mk.injEq] at h
      intro x hx
      rw [← h.1] at hx
      exact absurd hx (List.not_mem_nil x)
    · split at h
      · exact absurd h (by simp)
      · next items3 flog happ =>
        simp only [Except.ok.injEq, Prod.mk.injEq] at h
        intro x hx
        rw [← h.1] at hx
        have hx4 := List.take_subset _ _ hx
        have hx3 : x ∈ items3 := by
          revert hx4
          split
          · intro hx4
            simp only [sortByDateDesc] at hx4
            exact List.mem_mergeSort.mp hx4
          · exact fun hx4 => hx4
        have hx2 := applyModeFilter_ok_mem _ _ _ _ _ _ _ _ happ x hx3
        revert hx2
        split
        · intro hx2
          refine sniffLoop_inv env (safe_slug source.name) _ ?_ x hx2
          intro y hy
          revert hy
          split
          · intro hy
            exact absurd hy (List.not_mem_nil y)
          · intro hy
            exact buildFromRss_inv source (safe_slug source.name) _ _ _ _ _ _ _
              (fun z hz => absurd hz (List.not_mem_nil z)) y hy
        · intro hx2
          revert hx2
          split
          · intro hx2
            exact absurd hx2 (List.not_mem_nil x)
          · intro hx2
            exact buildFromRss_inv source (safe_slug source.name) _ _ _ _ _ _ _
              (fun z hz => absurd hz (List.not_mem_nil z)) x hx2

/-- C7: the article id is the deterministic content-address of the
(source_slug, normalized url, published_at) triple: it equals the first 24
hex digits of the SHA-256 of the bar-joined triple, does not depend on the
wall clock or the other item fields, is recomputed from the new triple when
date-sniffing fills published_at, and every article a discovery run returns
satisfies id = article_id(source_slug, url, published_at), so identical
runs yield identical ids. -/
theorem claim_C7_content_addressed_id :
    (∀ (s u : String) (p : Option String),
      article_id s u p =
        (bytesToHex (sha256 (utf8Bytes (s ++ "|" ++ u ++ "|" ++ p.getD "")))).take 24) ∧
    (∀ (source : Source) (slug dm eu now1 now2 : String) (it : RSSItem),
      (make_article source slug dm eu now1 it).id =
        (make_article source slug dm eu now2 it).id ∧
      (make_article source slug dm eu now1 it).id =
        article_id slug (normalize_url it.url) it.published_at) ∧
    (∀ (slug p : String) (a : Article),
      (apply_sniff_result slug (some p) a).published_at = some p ∧
      (apply_sniff_result slug (some p) a).id = article_id slug a.url (some p)) ∧
    (∀ (env : DiscoveryEnv) (source : Source) (li : Nat) (mode : String)
       (ln od df dt : Option Int) (pm : Nat),
      (resultItems (fetch_discovery_items env source li mode ln od df dt pm)).all
        (fun a => a.id == article_id a.source_slug a.url a.published_at) = true) := by
  refine ⟨?_, ?_, ?_, ?_⟩
  · intro s u p
    simp only [article_id]
  · intro source slug dm eu now1 now2 it
    constructor
    · simp only [make_article]
    · simp only [make_article]
  · intro slug p a
    constructor
    · simp only [apply_sniff_result]
    · simp only [apply_sniff_result]
  · intro env source li mode ln od df dt pm
    rw [List.all_eq_true]
    intro x hx
    suffices h : article_id_inv (safe_slug source.name) x by
      rw [beq_iff_eq, h.1]
      exact h.2
    unfold resultItems at hx
    revert hx
    split
    · next items lg hr =>
      intro hx
      exact core_items_inv env source li (normalizeFetchMode mode) ln od df dt pm
        items lg hr x hx
    · intro hx
      exact absurd hx (List.not_mem_nil x)

end PakOsint
